import Mathlib

/-!
# Musij backend: checkout sessions, webhooks and cached metadata routes

A shallow embedding of the Express route handlers of the Musij backend
(`src/server.js`, `src/routes/stripe.js`, `src/routes/bandsintown.js`,
`src/routes/genius.js`, `src/routes/lastfm.js`, `src/routes/spotify.js`).

Conventions of the embedding:

* a handler is a pure function from the process state it touches (session map,
  caches), the current time, the request and the answers of the external
  services to the new state, the HTTP response and the list of outbound calls;
* external services (`stripe.checkout.sessions.create`,
  `stripe.webhooks.constructEvent`, `axios.get`, ...) are function parameters;
* a JavaScript number is held as a rational, with `nan` and the infinities as
  separate values; arithmetic rounds its result to the nearest IEEE 754 double
  (`toDouble`);
* a JavaScript `Map` is an association list in insertion order.
-/

namespace Musij

/-! ## JavaScript values -/

/-- The values a JSON document can hold, together with `undefined` (an absent
field), `NaN` (the result of arithmetic on a non-number) and the two infinities
(the result of arithmetic that overflows). -/
inductive JsVal where
  | undefined : JsVal
  | null : JsVal
  | nan : JsVal
  | inf (negative : Bool) : JsVal
  | bool (b : Bool) : JsVal
  | num (q : ℚ) : JsVal
  | str (s : String) : JsVal
  | arr (items : List JsVal) : JsVal
  | obj (fields : List (String × JsVal)) : JsVal

namespace JsVal

/-- JavaScript truthiness (`ToBoolean`): `undefined`, `null`, `NaN`, `false`,
`0` and the empty string are falsy, everything else is truthy. -/
def truthy : JsVal → Bool
  | undefined => false
  | null => false
  | nan => false
  | inf _ => true
  | bool b => b
  | num q => decide (q ≠ 0)
  | str s => decide (s ≠ "")
  | arr _ => true
  | obj _ => true

/-- The expression `a || b`. -/
def orElse (a b : JsVal) : JsVal := if a.truthy then a else b

/-- Whether the value is `null` or `undefined`. -/
def nullish : JsVal → Bool
  | undefined => true
  | null => true
  | _ => false

/-- Lookup of a key among the fields of an object literal. -/
def lookup : List (String × JsVal) → String → JsVal
  | [], _ => undefined
  | (k, v) :: rest, name => if k = name then v else lookup rest name

/-- Property read `v.name` for a named (non-index) property on a value that is
not nullish: an own field of an object, `undefined` on anything else. -/
def field (v : JsVal) (name : String) : JsVal :=
  match v with
  | obj fields => lookup fields name
  | _ => undefined

/-- The optional chain `v?.name`. -/
def optField (v : JsVal) (name : String) : JsVal :=
  if v.nullish then undefined else v.field name

end JsVal

/-- The coercions of the language runtime that the embedding does not spell
out: `ToNumber` and `ToString` on strings, numbers, arrays and objects, and
`String.prototype.toLowerCase`. -/
structure Runtime where
  coerce : JsVal → Option ℚ
  render : JsVal → String
  lower : String → String

/-! ## IEEE 754 doubles -/

/-- Rounding of a rational to the nearest integer, ties to the even one. -/
def roundHalfEven (x : ℚ) : ℤ :=
  if x - ⌊x⌋ < 1 / 2 then ⌊x⌋
  else if 1 / 2 < x - ⌊x⌋ then ⌊x⌋ + 1
  else if ⌊x⌋ % 2 = 0 then ⌊x⌋ else ⌊x⌋ + 1

/-- The binary exponent of the last place of a double of magnitude `x > 0`:
53 significant bits, and `-1074` throughout the subnormal range. -/
def ulpExp (x : ℚ) : ℤ := max (Int.log 2 x - 52) (-1074)

/-- The value of a real number as an IEEE 754 binary64, the number type of
JavaScript: the nearest double, ties to even, and an infinity from `2 ^ 1024`
on. -/
def toDouble (x : ℚ) : JsVal :=
  if x = 0 then .num 0
  else if (2 : ℚ) ^ 1024 ≤
      roundHalfEven (|x| / 2 ^ ulpExp |x|) * 2 ^ ulpExp |x| then
    .inf (decide (x < 0))
  else if x < 0 then
    .num (-(roundHalfEven (|x| / 2 ^ ulpExp |x|) * 2 ^ ulpExp |x|))
  else .num (roundHalfEven (|x| / 2 ^ ulpExp |x|) * 2 ^ ulpExp |x|)

/-- The product `q * k` of a number (read as the nearest double) and a positive
literal `k`, rounded to a double. -/
def timesNum (q k : ℚ) : JsVal :=
  match toDouble q with
  | .num d => toDouble (d * k)
  | other => other

/-- The quotient `q / k` of a number (read as the nearest double) and a
positive literal `k`, rounded to a double. -/
def overNum (q k : ℚ) : JsVal :=
  match toDouble q with
  | .num d => toDouble (d / k)
  | other => other

namespace JsVal

/-- The multiplication `v * k` by a positive numeric literal (`ToNumber` on
`v`, then the product as a double; `NaN` when `v` is not numeric). -/
def times (rt : Runtime) (v : JsVal) (k : ℚ) : JsVal :=
  match v with
  | num q => timesNum q k
  | inf negative => inf negative
  | bool true => toDouble k
  | bool false => num 0
  | null => num 0
  | undefined => nan
  | nan => nan
  | other => match rt.coerce other with
    | some q => timesNum q k
    | none => nan

/-- The division `v / k` by a positive numeric literal. -/
def over (rt : Runtime) (v : JsVal) (k : ℚ) : JsVal :=
  match v with
  | num q => overNum q k
  | inf negative => inf negative
  | bool true => toDouble (1 / k)
  | bool false => num 0
  | null => num 0
  | undefined => nan
  | nan => nan
  | other => match rt.coerce other with
    | some q => overNum q k
    | none => nan

/-- The coercion `ToString`, as applied inside a template string. -/
def toStr (rt : Runtime) (v : JsVal) : String :=
  match v with
  | str s => s
  | undefined => "undefined"
  | null => "null"
  | nan => "NaN"
  | inf false => "Infinity"
  | inf true => "-Infinity"
  | bool true => "true"
  | bool false => "false"
  | other => rt.render other

end JsVal

/-! ## JavaScript `Map` -/

/-- A `Map` with string keys, in insertion order. -/
abbrev JsMap (β : Type) := List (String × β)

namespace JsMap

variable {β : Type}

/-- The method `Map.prototype.get`. -/
def get : JsMap β → String → Option β
  | [], _ => none
  | (k, v) :: rest, key => if k = key then some v else get rest key

/-- The method `Map.prototype.has`. -/
def has (m : JsMap β) (key : String) : Bool := (get m key).isSome

/-- The method `Map.prototype.set`: replaces the value of an existing key in
place, appends a new key at the end. -/
def set : JsMap β → String → β → JsMap β
  | [], key, v => [(key, v)]
  | (k, w) :: rest, key, v =>
    if k = key then (k, v) :: rest else (k, w) :: set rest key v

/-- In-place mutation of the object stored under `key`
(`m.get(key).prop = ...`). -/
def modify : JsMap β → String → (β → β) → JsMap β
  | [], _, _ => []
  | (k, w) :: rest, key, f =>
    if k = key then (k, f w) :: rest else (k, w) :: modify rest key f

/-- The keys of the map, in insertion order. -/
def keys (m : JsMap β) : List String := m.map Prod.fst

end JsMap

/-! ## HTTP responses -/

/-- What a handler sends: the status code (200 unless `res.status` is called)
and the value given to `res.json` or `res.send`. -/
structure Response where
  status : Nat
  body : JsVal

/-- The call `res.json(body)` with the default status. -/
def Response.json (body : JsVal) : Response := ⟨200, body⟩

/-! ## `src/routes/stripe.js` -/

/-- An entry of `activeSessions`. -/
structure SessionRecord where
  userId : JsVal
  planType : JsVal
  planName : JsVal
  amount : JsVal
  status : String
  createdAt : Nat

/-- The module-level `activeSessions` map. -/
abbrev Sessions := JsMap SessionRecord

/-- Status of a session id in the store, if registered. -/
def statusOf (store : Sessions) (id : String) : Option String :=
  (JsMap.get store id).map SessionRecord.status

/-- The part of `process.env` the payment routes read. -/
structure Env where
  frontendUrl : JsVal
  publishableKey : JsVal
  webhookSecret : JsVal

/-- The fields of `req.body` read by `create-checkout-session`. -/
structure CheckoutBody where
  planType : JsVal
  planName : JsVal
  amount : JsVal
  userId : JsVal

/-- The argument of `stripe.checkout.sessions.create`. -/
structure CreateParams where
  payment_method_types : List String
  currency : String
  productName : String
  productDescription : String
  productImages : List String
  unit_amount : JsVal
  quantity : Nat
  mode : String
  success_url : String
  cancel_url : String
  metaUserId : JsVal
  metaPlanType : JsVal
  metaPlanName : JsVal

/-- The fields of the provider's answer read by the routes. -/
structure ProviderSession where
  id : String
  url : JsVal
  payment_status : JsVal
  customer_details : JsVal
  amount_total : JsVal
  metadata : JsVal

/-- Outcome of a payment handler: the new store, the response and the calls
made to `stripe.checkout.sessions.create`. -/
structure CheckoutResult where
  store : Sessions
  response : Response
  calls : List CreateParams

/-- The object given to `stripe.checkout.sessions.create` (lines 25-49). -/
def createParams (env : Env) (rt : Runtime) (body : CheckoutBody) :
    CreateParams :=
  { payment_method_types := ["card"]
    currency := "idr"
    productName := "Musij Premium - " ++ body.planName.toStr rt
    productDescription :=
      body.planName.toStr rt ++ " subscription for Musij music streaming"
    productImages :=
      ["https://via.placeholder.com/300x300/2196F3/FFFFFF?text=Musij+Premium"]
    unit_amount := body.amount.times rt 100
    quantity := 1
    mode := "payment"
    success_url :=
      (env.frontendUrl.orElse (.str "http://127.0.0.1:5500")).toStr rt ++
        "?success=true&session_id=\x7bCHECKOUT_SESSION_ID\x7d"
    cancel_url :=
      (env.frontendUrl.orElse (.str "http://127.0.0.1:5500")).toStr rt ++
        "?canceled=true"
    metaUserId := body.userId.orElse (.str "guest")
    metaPlanType := body.planType
    metaPlanName := body.planName }

/-- Handler of `POST /create-checkout-session` (lines 12-76).  `stripeCreate`
is the provider call, `.error msg` standing for a rejected promise. -/
def createCheckoutSession (env : Env) (rt : Runtime)
    (stripeCreate : CreateParams → Except String ProviderSession) (now : Nat)
    (body : CheckoutBody) (store : Sessions) : CheckoutResult :=
  if !body.planType.truthy || !body.amount.truthy then
    { store := store
      response := ⟨400, .obj [("success", .bool false),
        ("message", .str "Plan type and amount are required")]⟩
      calls := [] }
  else
    let params := createParams env rt body
    match stripeCreate params with
    | .ok session =>
      { store := JsMap.set store session.id
          { userId := body.userId, planType := body.planType,
            planName := body.planName, amount := body.amount,
            status := "pending", createdAt := now }
        response := Response.json (.obj [("success", .bool true),
          ("sessionId", .str session.id), ("url", session.url),
          ("publishableKey", env.publishableKey)])
        calls := [params] }
    | .error msg =>
      { store := store
        response := ⟨500, .obj [("success", .bool false),
          ("message", .str "Failed to create checkout session"),
          ("error", .str msg)]⟩
        calls := [params] }

/-- Handler of `GET /session/:sessionId` (lines 82-103); `retrieve` is
`stripe.checkout.sessions.retrieve`. -/
def sessionStatus (rt : Runtime)
    (retrieve : String → Except String ProviderSession) (sessionId : String) :
    Response :=
  match retrieve sessionId with
  | .ok session =>
    Response.json (.obj [("success", .bool true),
      ("status", session.payment_status),
      ("customerEmail", session.customer_details.optField "email"),
      ("amountTotal", session.amount_total.over rt 100),
      ("metadata", session.metadata)])
  | .error msg =>
    ⟨500, .obj [("success", .bool false),
      ("message", .str "Failed to retrieve session"), ("error", .str msg)]⟩

/-- What `req.body` holds when the webhook handler runs: the bytes received
(a `Buffer`) or a value produced by a body parser. -/
inductive ReqBody where
  | raw (bytes : List Nat) : ReqBody
  | parsed (v : JsVal) : ReqBody

/-- The fields of a verified event read by the webhook handler:
`event.type` and `event.data.object.id`. -/
structure StripeEvent where
  type : String
  objectId : String

/-- The webhook request as the handler sees it: `req.body` and the
`stripe-signature` header (`undefined` when missing). -/
structure WebhookReq where
  body : ReqBody
  sig : JsVal

/-- The signature of `stripe.webhooks.constructEvent(body, sig, secret)`; `.error msg`
is a thrown error. -/
abbrev ConstructEvent := ReqBody → JsVal → JsVal → Except String StripeEvent

/-- The `switch (event.type)` of the webhook handler (lines 126-145). -/
def applyEvent (event : StripeEvent) (store : Sessions) : Sessions :=
  if event.type = "checkout.session.completed" then
    if JsMap.has store event.objectId then
      JsMap.modify store event.objectId (fun r => { r with status := "completed" })
    else store
  else if event.type = "checkout.session.expired" then
    store
  else
    store

/-- Handler of `POST /webhook` (lines 109-148). -/
def webhook (env : Env) (constructEvent : ConstructEvent) (req : WebhookReq)
    (store : Sessions) : Sessions × Response :=
  match constructEvent req.body req.sig env.webhookSecret with
  | .error msg => (store, ⟨400, .str ("Webhook Error: " ++ msg)⟩)
  | .ok event => (applyEvent event store, Response.json (.obj [("received", .bool true)]))

/-- The store after a sequence of webhook deliveries, handled one after the
other. -/
def webhookRun (env : Env) (constructEvent : ConstructEvent) :
    List WebhookReq → Sessions → Sessions
  | [], store => store
  | req :: rest, store =>
    webhookRun env constructEvent rest (webhook env constructEvent req store).1

/-! ## `src/server.js`: the middleware in front of the webhook route

The body parsers are those of `body-parser` as bundled with Express 4: each
parser leaves a request alone once `req._body` is set, sets `req.body` to an
empty object when it is still undefined, skips a request without an entity body
or with another media type, and otherwise reads the stream, marks `req._body`
and stores what it produced.  Requests are taken to be uncompressed UTF-8. -/

/-- An error passed to `next(err)` by a body parser. -/
structure HttpError where
  status : Nat
  message : String

/-- An incoming request: the normalised media type of `Content-Type`, whether
an entity body is announced, the bytes on the wire, the `stripe-signature`
header, and the two properties the body parsers write (`req.body`, `none` while
undefined, and `req._body`). -/
structure HttpReq where
  mediaType : String
  hasBody : Bool
  wire : List Nat
  sig : JsVal
  body : Option ReqBody
  parsedFlag : Bool

/-- The default `limit` of the body parsers, `100kb`. -/
def bodyLimit : Nat := 102400

/-- The shared skeleton of a body parser for one media type; `produce` turns
the bytes read into the new `req.body` or fails. -/
def bodyParser (type : String) (produce : List Nat → Except HttpError ReqBody)
    (req : HttpReq) : Except HttpError HttpReq :=
  if req.parsedFlag then .ok req
  else
    let req1 := { req with body := some (req.body.getD (.parsed (.obj []))) }
    if !req1.hasBody then .ok req1
    else if req1.mediaType ≠ type then .ok req1
    else if req1.wire.length > bodyLimit then
      .error ⟨413, "request entity too large"⟩
    else
      match produce req1.wire with
      | .ok b => .ok { req1 with body := some b, parsedFlag := true }
      | .error e => .error e

/-- The middleware `express.json()`; `jsonParse` is the strict `JSON.parse`
(`.error msg` for a syntax error). -/
def expressJson (jsonParse : List Nat → Except String JsVal) :
    HttpReq → Except HttpError HttpReq :=
  bodyParser "application/json" (fun bytes =>
    match jsonParse bytes with
    | .ok v => .ok (.parsed v)
    | .error msg => .error ⟨400, msg⟩)

/-- The middleware `express.urlencoded` with the extended option; `formParse` is
the query-string parser. -/
def expressUrlencoded (formParse : List Nat → JsVal) :
    HttpReq → Except HttpError HttpReq :=
  bodyParser "application/x-www-form-urlencoded" (fun bytes =>
    .ok (.parsed (formParse bytes)))

/-- The route-level middleware `express.raw` for type `application/json`
(`stripe.js` line 109). -/
def expressRaw : HttpReq → Except HttpError HttpReq :=
  bodyParser "application/json" (fun bytes => .ok (.raw bytes))

/-- The body-parsing chain a `POST /api/payment/webhook` goes through:
`express.json()` and `express.urlencoded` mounted on the application
(`server.js` lines 21-22), then `express.raw` on the route. -/
def webhookChain (jsonParse : List Nat → Except String JsVal)
    (formParse : List Nat → JsVal) (req : HttpReq) : Except HttpError HttpReq :=
  expressJson jsonParse req >>= expressUrlencoded formParse >>= expressRaw

/-- The `req.body` that the webhook handler passes to
`stripe.webhooks.constructEvent`, when the chain reaches the handler. -/
def webhookBody (jsonParse : List Nat → Except String JsVal)
    (formParse : List Nat → JsVal) (req : HttpReq) : Except HttpError ReqBody :=
  (webhookChain jsonParse formParse req).map
    (fun r => r.body.getD (.parsed .undefined))

/-! ## `node-cache`

The model of the `NodeCache` instances of the routes, with the default options
besides `stdTTL`: an entry stores its expiry `t` in milliseconds (`0` for no
expiry), and a read drops an entry whose expiry lies before the current time. -/

/-- A wrapped cache value: expiry time `t` and value `v`. -/
structure CacheEntry where
  t : Nat
  v : JsVal

/-- The `data` of a `NodeCache`. -/
abbrev Cache := JsMap CacheEntry

/-- Removal of a key (`del`). -/
def cacheDel : Cache → String → Cache
  | [], _ => []
  | (k, e) :: rest, key => if k = key then rest else (k, e) :: cacheDel rest key

/-- The method `get` at time `now`: the value, or `undefined` on a miss or on an
expired entry, which is deleted. -/
def cacheGet (cache : Cache) (now : Nat) (key : String) : JsVal × Cache :=
  match JsMap.get cache key with
  | none => (.undefined, cache)
  | some e =>
    if e.t ≠ 0 ∧ e.t < now then (.undefined, cacheDel cache key)
    else (e.v, cache)

/-- The method `set` without a ttl argument at time `now`, for a cache created
with `stdTTL` seconds. -/
def cacheSet (cache : Cache) (stdTTL : Nat) (now : Nat) (key : String)
    (v : JsVal) : Cache :=
  JsMap.set cache key ⟨if stdTTL = 0 then 0 else now + stdTTL * 1000, v⟩

/-! ## Upstream calls through `axios` -/

/-- The `response` of a rejected `axios` call. -/
structure ErrResponse where
  status : Nat
  data : JsVal

/-- A thrown value: an `axios` error (with `response` when the upstream
answered) or a `TypeError` / `Error` (no `response`). -/
structure JsError where
  response : Option ErrResponse
  message : String

/-- The outbound requests of the metadata routes. -/
inductive UpstreamCall where
  | bandsintownEvents (artistName : String) : UpstreamCall
  | geniusSong (songId : String) : UpstreamCall
  | spotifyToken : UpstreamCall
  | spotifyTrack (trackId : String) (token : JsVal) : UpstreamCall
  | geniusSearch (q : JsVal) : UpstreamCall
  | lastfmArtistInfo (artistName : String) : UpstreamCall

/-- The answer to an outbound request: how long it took (milliseconds) and
either `response.data` of a 2xx answer or the rejection. -/
structure Reply where
  elapsed : Nat
  result : Except JsError JsVal

/-- The upstream services: the answer to a request started at a given time. -/
abbrev Upstream := UpstreamCall → Nat → Reply

/-- Outcome of a metadata route on one cache. -/
structure RouteResult where
  cache : Cache
  response : Response
  calls : List UpstreamCall

/-- A `TypeError` with the given message. -/
def typeError (message : String) : JsError := ⟨none, message⟩

/-- Property read `v.name`, which throws on `undefined` and `null`. -/
def JsVal.prop (v : JsVal) (name : String) : Except JsError JsVal :=
  match v with
  | .undefined =>
    .error (typeError ("Cannot read properties of undefined (reading \x27" ++ name ++ "\x27)"))
  | .null =>
    .error (typeError ("Cannot read properties of null (reading \x27" ++ name ++ "\x27)"))
  | other => .ok (other.field name)

/-- Index read `v[0]`, which throws on `undefined` and `null`. -/
def JsVal.first (v : JsVal) : Except JsError JsVal :=
  match v with
  | .undefined =>
    .error (typeError "Cannot read properties of undefined (reading \x270\x27)")
  | .null =>
    .error (typeError "Cannot read properties of null (reading \x270\x27)")
  | .arr items => .ok (items.headD .undefined)
  | .str s => .ok (if s = "" then .undefined else .str (s.take 1))
  | .obj fields => .ok (JsVal.lookup fields "0")
  | _ => .ok .undefined

/-- The envelope of a failed route: status 500, `success: false`, the route
message and `error.message`. -/
def failure (message : String) (e : JsError) : Response :=
  ⟨500, .obj [("success", .bool false), ("message", .str message),
    ("error", .str e.message)]⟩

/-- The envelope of a cache hit. -/
def fromCache (cached : JsVal) : Response :=
  Response.json (.obj [("success", .bool true), ("data", cached),
    ("from_cache", .bool true)])

/-! ## `src/routes/bandsintown.js` -/

/-- The call `event.datetime.split("T")`: defined on strings only. -/
def splitT (datetime : JsVal) : Except JsError (List String) :=
  match datetime with
  | .str s => .ok (s.splitOn "T")
  | .undefined =>
    .error (typeError "Cannot read properties of undefined (reading \x27split\x27)")
  | .null =>
    .error (typeError "Cannot read properties of null (reading \x27split\x27)")
  | _ => .error (typeError "event.datetime.split is not a function")

/-- The expression `event.datetime.split("T")[1]?.substring(0, 5) || "19:00"`
on the parts of the split. -/
def timeOf (parts : List String) : JsVal :=
  match parts.get? 1 with
  | some p => (JsVal.str (p.take 5)).orElse (.str "19:00")
  | none => .str "19:00"

/-- The expression `event.url || event.offers[0]?.url || "#"`. -/
def ticketUrl (event : JsVal) : Except JsError JsVal := do
  let url ← event.prop "url"
  if url.truthy then pure url
  else do
    let offers ← event.prop "offers"
    let offer ← offers.first
    pure ((offer.optField "url").orElse (.str "#"))

/-- The callback of `events.map` (lines 48-65): the normalised event, or the
`TypeError` raised while building it. -/
def transformEvent (rt : Runtime) (artistName : String) (event : JsVal) :
    Except JsError JsVal := do
  let id ← event.prop "id"
  let title ← event.prop "title"
  let datetime ← event.prop "datetime"
  let parts ← splitT datetime
  let venue ← event.prop "venue"
  let venueName ← venue.prop "name"
  let city ← venue.prop "city"
  let region ← venue.prop "region"
  let country ← venue.prop "country"
  let lineup ← event.prop "lineup"
  let offers ← event.prop "offers"
  let ticket ← ticketUrl event
  let description ← event.prop "description"
  pure (.obj [
    ("id", id),
    ("title", title.orElse (.str (artistName ++ " Live"))),
    ("datetime", datetime),
    ("date", .str (parts.headD "")),
    ("time", timeOf parts),
    ("venue", .obj [("name", venueName), ("city", city), ("region", region),
      ("country", country),
      ("location", .str (city.toStr rt ++ ", " ++ country.toStr rt))]),
    ("lineup", lineup.orElse (.arr [.str artistName])),
    ("offers", offers.orElse (.arr [])),
    ("ticket_url", ticket),
    ("description",
      description.orElse (.str ("Live concert at " ++ venueName.toStr rt)))])

/-- The `stdTTL` of the events cache (line 7). -/
def eventsTTL : Nat := 21600

/-- The `try` block of the events route after a cache miss (lines 27-74): the
new cache and the response, or the error that reaches `catch`. -/
def eventsTry (rt : Runtime) (reply : Reply) (done : Nat) (artistName : String)
    (cacheKey : String) (cache : Cache) : Except JsError (Cache × Response) := do
  let events ← reply.result
  match events with
  | .arr (e :: es) =>
    let transformedEvents ← (e :: es).mapM (transformEvent rt artistName)
    pure (cacheSet cache eventsTTL done cacheKey (.arr transformedEvents),
      Response.json (.obj [("success", .bool true),
        ("data", .arr transformedEvents), ("from_cache", .bool false)]))
  | _ =>
    pure (cache, Response.json (.obj [("success", .bool true),
      ("data", .arr []), ("message", .str "No upcoming events found")]))

/-- Handler of `GET /artist/:artistName` of `bandsintown.js` (lines 16-94). -/
def eventsRoute (rt : Runtime) (fetch : Upstream) (now : Nat)
    (artistName : String) (cache : Cache) : RouteResult :=
  let cacheKey := "events_" ++ rt.lower artistName
  let looked := cacheGet cache now cacheKey
  if looked.1.truthy then ⟨looked.2, fromCache looked.1, []⟩
  else
    let call := UpstreamCall.bandsintownEvents artistName
    let reply := fetch call now
    match eventsTry rt reply (now + reply.elapsed) artistName cacheKey looked.2 with
    | .ok (cache1, response) => ⟨cache1, response, [call]⟩
    | .error e =>
      if e.response.map ErrResponse.status = some 404 then
        ⟨looked.2, Response.json (.obj [("success", .bool true),
          ("data", .arr []),
          ("message", .str "No events found for this artist")]), [call]⟩
      else ⟨looked.2, failure "Failed to get events" e, [call]⟩

/-! ## `src/routes/genius.js` -/

/-- The `stdTTL` of the lyrics cache (line 7). -/
def geniusTTL : Nat := 604800

/-- The construction of `songData` from `response.data` (lines 109-126). -/
def transformSong (data : JsVal) : Except JsError JsVal := do
  let response ← data.prop "response"
  let song ← response.prop "song"
  let id ← song.prop "id"
  let title ← song.prop "title"
  let primary ← song.prop "primary_artist"
  let artist ← primary.prop "name"
  let artistId ← primary.prop "id"
  let album ← song.prop "album"
  let release ← song.prop "release_date_for_display"
  let art ← song.prop "song_art_image_url"
  let header ← song.prop "header_image_url"
  let url ← song.prop "url"
  let description ← song.prop "description"
  let lyricsState ← song.prop "lyrics_state"
  pure (.obj [
    ("id", id), ("title", title), ("artist", artist), ("artist_id", artistId),
    ("album", (album.optField "name").orElse (.str "Unknown")),
    ("release_date", release), ("song_art_image_url", art),
    ("header_image_url", header), ("url", url),
    ("description", (description.optField "plain").orElse (.str "")),
    ("lyrics_state", lyricsState), ("genius_url", url)])

/-- Handler of `GET /song/:songId` of `genius.js` (lines 92-146). -/
def songRoute (fetch : Upstream) (now : Nat) (songId : String) (cache : Cache) :
    RouteResult :=
  let cacheKey := "song_" ++ songId
  let looked := cacheGet cache now cacheKey
  if looked.1.truthy then ⟨looked.2, fromCache looked.1, []⟩
  else
    let call := UpstreamCall.geniusSong songId
    let reply := fetch call now
    match reply.result >>= transformSong with
    | .ok songData =>
      ⟨cacheSet looked.2 geniusTTL (now + reply.elapsed) cacheKey songData,
        Response.json (.obj [("success", .bool true), ("data", songData),
          ("from_cache", .bool false),
          ("note", .str "Full lyrics available at genius_url")]), [call]⟩
    | .error e => ⟨looked.2, failure "Failed to get song details" e, [call]⟩

/-- The read `v.length`, which throws on `undefined` and `null`. -/
def JsVal.lengthOf (v : JsVal) : Except JsError JsVal :=
  match v with
  | .undefined =>
    .error (typeError "Cannot read properties of undefined (reading \x27length\x27)")
  | .null =>
    .error (typeError "Cannot read properties of null (reading \x27length\x27)")
  | .arr items => .ok (.num items.length)
  | .str s => .ok (.num s.length)
  | .obj fields => .ok (JsVal.lookup fields "length")
  | _ => .ok .undefined

/-- The comparison `v === 0`. -/
def JsVal.isZero : JsVal → Bool
  | .num q => decide (q = 0)
  | _ => false

/-- The callback of `hits.map` in the search route (lines 63-71). -/
def transformHit (hit : JsVal) : Except JsError JsVal := do
  let result ← hit.prop "result"
  let id ← result.prop "id"
  let title ← result.prop "title"
  let primary ← result.prop "primary_artist"
  let artist ← primary.prop "name"
  let artistId ← primary.prop "id"
  let url ← result.prop "url"
  let art ← result.prop "song_art_image_url"
  let header ← result.prop "header_image_thumbnail_url"
  pure (.obj [
    ("id", id), ("title", title), ("artist", artist), ("artist_id", artistId),
    ("url", url), ("song_art_image_url", art), ("header_image_url", header)])

/-- The call `hits.map(...)`: defined on arrays only. -/
def mapHits (hits : JsVal) : Except JsError (List JsVal) :=
  match hits with
  | .arr items => items.mapM transformHit
  | _ => .error (typeError "hits.map is not a function")

/-- The `try` block of the search route after validation (lines 45-76): the
response, or the error that reaches `catch`. -/
def searchTry (reply : Reply) : Except JsError Response := do
  let data ← reply.result
  let response ← data.prop "response"
  let hits ← response.prop "hits"
  let len ← hits.lengthOf
  if len.isZero then
    pure (Response.json (.obj [("success", .bool true), ("data", .arr []),
      ("message", .str "No songs found")]))
  else do
    let songs ← mapHits hits
    pure (Response.json (.obj [("success", .bool true), ("data", .arr songs)]))

/-- Outcome of a route without a cache. -/
structure SearchResult where
  response : Response
  calls : List UpstreamCall

/-- Handler of `GET /search` of `genius.js` (lines 30-86); `q` is
`req.query.q`, `undefined` when the parameter is absent. -/
def searchRoute (fetch : Upstream) (now : Nat) (q : JsVal) : SearchResult :=
  if !q.truthy then
    ⟨⟨400, .obj [("success", .bool false),
      ("message", .str "Query parameter \"q\" is required")]⟩, []⟩
  else
    let call := UpstreamCall.geniusSearch q
    match searchTry (fetch call now) with
    | .ok response => ⟨response, [call]⟩
    | .error e => ⟨failure "Failed to search songs" e, [call]⟩

/-! ## `src/routes/lastfm.js` -/

/-- The `stdTTL` of the artist cache (line 7). -/
def lastfmTTL : Nat := 86400

/-- The `try` block of the artist-info route after a cache miss (lines 27-65).
The field mapping of lines 43-56 (`parseInt`, a regular-expression replace,
`find`, `map`, `slice`) is the parameter `normalise`. -/
def artistInfoTry (normalise : JsVal → Except JsError JsVal) (reply : Reply)
    (done : Nat) (cacheKey : String) (cache : Cache) :
    Except JsError (Cache × Response) := do
  let data ← reply.result
  let err ← data.prop "error"
  if err.truthy then do
    let message ← data.prop "message"
    pure (cache, ⟨404, .obj [("success", .bool false),
      ("message", message.orElse (.str "Artist not found"))]⟩)
  else do
    let artist ← data.prop "artist"
    let artistData ← normalise artist
    pure (cacheSet cache lastfmTTL done cacheKey artistData,
      Response.json (.obj [("success", .bool true), ("data", artistData),
        ("from_cache", .bool false)]))

/-- Handler of `GET /info/:artistName` of `lastfm.js` (lines 16-76). -/
def artistInfoRoute (rt : Runtime) (normalise : JsVal → Except JsError JsVal)
    (fetch : Upstream) (now : Nat) (artistName : String) (cache : Cache) :
    RouteResult :=
  let cacheKey := "artist_info_" ++ rt.lower artistName
  let looked := cacheGet cache now cacheKey
  if looked.1.truthy then ⟨looked.2, fromCache looked.1, []⟩
  else
    let call := UpstreamCall.lastfmArtistInfo artistName
    let reply := fetch call now
    match artistInfoTry normalise reply (now + reply.elapsed) cacheKey looked.2 with
    | .ok (cache1, response) => ⟨cache1, response, [call]⟩
    | .error e => ⟨looked.2, failure "Failed to get artist info" e, [call]⟩

/-! ## `src/routes/spotify.js` -/

/-- The `stdTTL` of the token cache (line 7). -/
def tokenTTL : Nat := 3500

/-- The `stdTTL` of the track cache (line 10). -/
def trackTTL : Nat := 86400

/-- The two caches of `spotify.js`. -/
structure SpotifyState where
  tokenCache : Cache
  trackCache : Cache

/-- Outcome of `getSpotifyToken`: the token cache, the token or the thrown
error, the calls made and the time spent waiting. -/
structure TokenResult where
  tokenCache : Cache
  result : Except JsError JsVal
  calls : List UpstreamCall
  elapsed : Nat

/-- The function `getSpotifyToken` (lines 15-44). -/
def getSpotifyToken (fetch : Upstream) (now : Nat) (tokenCache : Cache) :
    TokenResult :=
  let looked := cacheGet tokenCache now "spotify_token"
  if looked.1.truthy then ⟨looked.2, .ok looked.1, [], 0⟩
  else
    let reply := fetch .spotifyToken now
    match reply.result >>= (fun data => data.prop "access_token") with
    | .ok token =>
      ⟨cacheSet looked.2 tokenTTL (now + reply.elapsed) "spotify_token" token,
        .ok token, [.spotifyToken], reply.elapsed⟩
    | .error _ =>
      ⟨looked.2, .error ⟨none, "Failed to get Spotify access token"⟩,
        [.spotifyToken], reply.elapsed⟩

/-- The construction of `trackData` from `response.data` (lines 123-135). -/
def transformTrack (track : JsVal) : Except JsError JsVal := do
  let id ← track.prop "id"
  let name ← track.prop "name"
  let artists ← track.prop "artists"
  let artist0 ← artists.first
  let artist ← artist0.prop "name"
  let album ← track.prop "album"
  let albumName ← album.prop "name"
  let duration ← track.prop "duration_ms"
  let preview ← track.prop "preview_url"
  let images ← album.prop "images"
  let image0 ← images.first
  let release ← album.prop "release_date"
  let popularity ← track.prop "popularity"
  let external ← track.prop "external_urls"
  let spotifyUrl ← external.prop "spotify"
  pure (.obj [
    ("id", id), ("name", name), ("artist", artist), ("album", albumName),
    ("duration_ms", duration), ("preview_url", preview),
    ("image", image0.optField "url"), ("release_date", release),
    ("popularity", popularity), ("spotify_url", spotifyUrl)])

/-- Outcome of a route of `spotify.js`. -/
structure SpotifyResult where
  state : SpotifyState
  response : Response
  calls : List UpstreamCall

/-- Handler of `GET /track/:trackId` of `spotify.js` (lines 105-153). -/
def trackRoute (fetch : Upstream) (now : Nat) (trackId : String)
    (st : SpotifyState) : SpotifyResult :=
  let cacheKey := "track_" ++ trackId
  let looked := cacheGet st.trackCache now cacheKey
  if looked.1.truthy then ⟨⟨st.tokenCache, looked.2⟩, fromCache looked.1, []⟩
  else
    let tok := getSpotifyToken fetch now st.tokenCache
    match tok.result with
    | .error e =>
      ⟨⟨tok.tokenCache, looked.2⟩, failure "Failed to get track details" e,
        tok.calls⟩
    | .ok token =>
      let call := UpstreamCall.spotifyTrack trackId token
      let reply := fetch call (now + tok.elapsed)
      match reply.result >>= transformTrack with
      | .ok trackData =>
        ⟨⟨tok.tokenCache,
            cacheSet looked.2 trackTTL (now + tok.elapsed + reply.elapsed)
              cacheKey trackData⟩,
          Response.json (.obj [("success", .bool true), ("data", trackData),
            ("from_cache", .bool false)]), tok.calls ++ [call]⟩
      | .error e =>
        ⟨⟨tok.tokenCache, looked.2⟩, failure "Failed to get track details" e,
          tok.calls ++ [call]⟩

/-! ## Sample inputs -/

/-- A runtime whose residual coercions are trivial. -/
def sampleRuntime : Runtime :=
  { coerce := fun _ => none, render := fun _ => "", lower := String.toLower }

/-- A sample environment. -/
def sampleEnv : Env :=
  { frontendUrl := .undefined, publishableKey := .str "pk_test",
    webhookSecret := .str "whsec_test" }

/-- A provider that accepts every checkout and names the session `cs_1`. -/
def sampleCreate : CreateParams → Except String ProviderSession :=
  fun _ => .ok
    { id := "cs_1", url := .str "https://checkout.stripe.com/pay/cs_1",
      payment_status := .str "unpaid", customer_details := .null,
      amount_total := .num 5000000, metadata := .obj [] }

/-- A provider that is down. -/
def failingCreate : CreateParams → Except String ProviderSession :=
  fun _ => .error "connection refused"

/-- A session record for user `u1` with the given status. -/
def sampleRecord (status : String) : SessionRecord :=
  { userId := .str "u1", planType := .str "premium", planName := .str "Monthly",
    amount := .num 50000, status := status, createdAt := 0 }

/-- A verifier that accepts a request exactly when a signature header is
present, and then reads the event type from the header and names `cs_1`. -/
def sampleVerify : ConstructEvent := fun _ sig _ =>
  match sig with
  | .str t => .ok { type := t, objectId := "cs_1" }
  | _ => .error "No stripe-signature header value was provided."

/-- A webhook delivery whose signature header is the given value. -/
def sampleDelivery (sig : JsVal) : WebhookReq :=
  { body := .raw [123, 125], sig := sig }

/-- A webhook delivery as it arrives at the application: a JSON body of two
bytes with a signature header, nothing parsed yet. -/
def sampleWebhookPost : HttpReq :=
  { mediaType := "application/json", hasBody := true, wire := [123, 125],
    sig := .str "t=1,v1=abc", body := none, parsedFlag := false }

/-- A JSON parser that reads every document as the empty object. -/
def sampleJsonParse : List Nat → Except String JsVal := fun _ => .ok (.obj [])

/-- A form parser that reads every document as the empty object. -/
def sampleFormParse : List Nat → JsVal := fun _ => .obj []

/-- The rejection of an upstream call that answered 404. -/
def notFound : JsError :=
  { response := some ⟨404, .str "Not Found"⟩,
    message := "Request failed with status code 404" }

/-- Upstream services that grant a token and answer 404 to everything else. -/
def upstream404 : Upstream := fun call _ =>
  match call with
  | .spotifyToken =>
    ⟨5, .ok (.obj [("access_token", .str "tok"), ("expires_in", .num 3600)])⟩
  | _ => ⟨5, .error notFound⟩

/-- A song payload as the lyrics service answers it. -/
def sampleSongPayload : JsVal :=
  .obj [("response", .obj [("song", .obj [
    ("id", .num 42), ("title", .str "Song"),
    ("primary_artist", .obj [("name", .str "Artist"), ("id", .num 7)]),
    ("url", .str "https://genius.com/song")])])]

/-- Upstream services whose token endpoint grants `tok_a` to a request started
at time `0` and `tok_b` afterwards, each declared valid for `expires` seconds,
and which answer every other request with the sample song payload. -/
def tokenUpstream (expires : ℚ) : Upstream := fun call t =>
  match call with
  | .spotifyToken =>
    ⟨5, .ok (.obj [("access_token", .str (if t = 0 then "tok_a" else "tok_b")),
      ("expires_in", .num expires)])⟩
  | _ => ⟨5, .ok sampleSongPayload⟩

/-- An upstream event with a date and a venue, without `url` and without
`offers`. -/
def bareEvent : JsVal :=
  .obj [("id", .str "e1"), ("datetime", .str "2025-01-02T20:30:00"),
    ("venue", .obj [("name", .str "Hall"), ("city", .str "Jakarta"),
      ("country", .str "Indonesia")])]

/-- An upstream event with a date, a venue and one offer. -/
def offerEvent : JsVal :=
  .obj [("id", .str "e2"), ("datetime", .str "2025-01-02T20:30:00"),
    ("venue", .obj [("name", .str "Hall"), ("city", .str "Jakarta"),
      ("country", .str "Indonesia")]),
    ("offers", .arr [.obj [("url", .str "https://tickets.example/e2")]])]

/-- Upstream services that answer every request with the given payload. -/
def constUpstream (data : JsVal) : Upstream := fun _ _ => ⟨5, .ok data⟩

/-! ## Lemmas on `Map` -/

theorem JsMap.get_modify {β : Type} (m : JsMap β) (key : String) (f : β → β)
    (x : String) :
    JsMap.get (JsMap.modify m key f) x =
      if x = key then (JsMap.get m key).map f else JsMap.get m x := by
  induction m with
  | nil => simp [JsMap.modify, JsMap.get]
  | cons p rest ih =>
    obtain ⟨k, w⟩ := p
    by_cases hk : k = key
    · subst hk
      by_cases hx : x = k
      · subst hx; simp [JsMap.modify, JsMap.get]
      · have hx2 : ¬ k = x := fun h => hx h.symm
        simp [JsMap.modify, JsMap.get, hx, hx2]
    · by_cases hx : x = key
      · subst hx
        simp [JsMap.modify, JsMap.get, hk, ih]
      · by_cases hkx : k = x
        · simp [JsMap.modify, JsMap.get, hk, hx, hkx]
        · simp [JsMap.modify, JsMap.get, hk, hx, hkx, ih]

theorem JsMap.keys_modify {β : Type} (m : JsMap β) (key : String) (f : β → β) :
    JsMap.keys (JsMap.modify m key f) = JsMap.keys m := by
  induction m with
  | nil => simp [JsMap.modify, JsMap.keys]
  | cons p rest ih =>
    obtain ⟨k, w⟩ := p
    by_cases hk : k = key
    · simp [JsMap.modify, JsMap.keys, hk]
    · simpa [JsMap.modify, JsMap.keys, hk] using ih

theorem JsMap.get_set {β : Type} (m : JsMap β) (key : String) (v : β)
    (x : String) :
    JsMap.get (JsMap.set m key v) x = if x = key then some v else JsMap.get m x := by
  induction m with
  | nil =>
    by_cases hx : x = key
    · subst hx; simp [JsMap.set, JsMap.get]
    · have hx2 : ¬ key = x := fun h => hx h.symm
      simp [JsMap.set, JsMap.get, hx, hx2]
  | cons p rest ih =>
    obtain ⟨k, w⟩ := p
    by_cases hk : k = key
    · subst hk
      by_cases hx : x = k
      · subst hx; simp [JsMap.set, JsMap.get]
      · have hx2 : ¬ k = x := fun h => hx h.symm
        simp [JsMap.set, JsMap.get, hx, hx2]
    · by_cases hx : x = key
      · subst hx
        simp [JsMap.set, JsMap.get, hk, ih]
      · by_cases hkx : k = x
        · simp [JsMap.set, JsMap.get, hk, hx, hkx]
        · simp [JsMap.set, JsMap.get, hk, hx, hkx, ih]

/-! ## The webhook handler -/

theorem applyEvent_of_not_completed (event : StripeEvent) (store : Sessions)
    (h : event.type ≠ "checkout.session.completed") :
    applyEvent event store = store := by
  unfold applyEvent
  rw [if_neg h]
  split <;> rfl

theorem applyEvent_keys (event : StripeEvent) (store : Sessions) :
    JsMap.keys (applyEvent event store) = JsMap.keys store := by
  unfold applyEvent
  split
  · split
    · exact JsMap.keys_modify _ _ _
    · rfl
  · split <;> rfl

theorem applyEvent_keeps_completed (event : StripeEvent) (store : Sessions)
    (X : String) (h : statusOf store X = some "completed") :
    statusOf (applyEvent event store) X = some "completed" := by
  unfold applyEvent
  split
  · split
    · unfold statusOf at h ⊢
      rw [JsMap.get_modify]
      by_cases hx : X = event.objectId
      · rw [if_pos hx, ← hx]
        cases hg : JsMap.get store X with
        | none => rw [hg] at h; simp at h
        | some r => simp
      · rw [if_neg hx]; exact h
    · exact h
  · split <;> exact h

theorem webhook_keeps_completed (env : Env) (constructEvent : ConstructEvent)
    (req : WebhookReq) (store : Sessions) (X : String)
    (h : statusOf store X = some "completed") :
    statusOf (webhook env constructEvent req store).1 X = some "completed" := by
  unfold webhook
  split
  · exact h
  · exact applyEvent_keeps_completed _ _ _ h

theorem webhookRun_keeps_completed (env : Env) (constructEvent : ConstructEvent)
    (reqs : List WebhookReq) (store : Sessions) (X : String)
    (h : statusOf store X = some "completed") :
    statusOf (webhookRun env constructEvent reqs store) X = some "completed" := by
  induction reqs generalizing store with
  | nil => exact h
  | cons req rest ih =>
    exact ih _ (webhook_keeps_completed env constructEvent req store X h)

/-- C1: when session id `X` has status `completed`, the status of `X` is still
`completed` after the webhook handler has processed any finite sequence of
deliveries, each of which verifies to a `checkout.session.completed` or a
`checkout.session.expired` event whose object id is `X`. -/
theorem webhook_terminal_completed (env : Env) (constructEvent : ConstructEvent)
    (store : Sessions) (X : String) (reqs : List WebhookReq)
    (hX : statusOf store X = some "completed")
    (_hev : ∀ req ∈ reqs, ∃ ev,
      constructEvent req.body req.sig env.webhookSecret = .ok ev ∧
      (ev.type = "checkout.session.completed" ∨
        ev.type = "checkout.session.expired") ∧ ev.objectId = X) :
    statusOf (webhookRun env constructEvent reqs store) X = some "completed" :=
  webhookRun_keeps_completed env constructEvent reqs store X hX

theorem webhook_terminal_completed_witness :
    statusOf [("cs_1", sampleRecord "completed")] "cs_1" = some "completed" ∧
    statusOf (webhookRun sampleEnv sampleVerify
      [sampleDelivery (.str "checkout.session.completed"),
        sampleDelivery (.str "checkout.session.expired")]
      [("cs_1", sampleRecord "completed")]) "cs_1" = some "completed" :=
  ⟨rfl, webhook_terminal_completed sampleEnv sampleVerify
    [("cs_1", sampleRecord "completed")] "cs_1"
    [sampleDelivery (.str "checkout.session.completed"),
      sampleDelivery (.str "checkout.session.expired")] rfl (by
      intro req hreq
      simp only [List.mem_cons, List.mem_singleton, List.not_mem_nil, or_false] at hreq
      rcases hreq with h | h
      · subst h
        exact ⟨⟨"checkout.session.completed", "cs_1"⟩, rfl, Or.inl rfl, rfl⟩
      · subst h
        exact ⟨⟨"checkout.session.expired", "cs_1"⟩, rfl, Or.inr rfl, rfl⟩)⟩

/-- C2: when `stripe.webhooks.constructEvent` throws on a webhook request
(wrong signature, or no signature header at all), the handler answers 400 and
the session store after the request is the store before it, whatever the body
says. -/
theorem webhook_signature_rejection (env : Env) (constructEvent : ConstructEvent)
    (req : WebhookReq) (store : Sessions) (msg : String)
    (hfail : constructEvent req.body req.sig env.webhookSecret = .error msg) :
    (webhook env constructEvent req store).2.status = 400 ∧
    (webhook env constructEvent req store).1 = store := by
  unfold webhook
  rw [hfail]
  exact ⟨rfl, rfl⟩

theorem webhook_signature_rejection_witness :
    (webhook sampleEnv sampleVerify (sampleDelivery .undefined)
      [("cs_1", sampleRecord "pending")]).2.status = 400 ∧
    (webhook sampleEnv sampleVerify (sampleDelivery .undefined)
      [("cs_1", sampleRecord "pending")]).1 = [("cs_1", sampleRecord "pending")] :=
  webhook_signature_rejection sampleEnv sampleVerify (sampleDelivery .undefined)
    [("cs_1", sampleRecord "pending")]
    "No stripe-signature header value was provided." rfl

/-! ## Doubles -/

theorem roundHalfEven_intCast (z : ℤ) : roundHalfEven (z : ℚ) = z := by
  unfold roundHalfEven
  simp

theorem ulpExp_le (x : ℚ) (hx : 0 < x) (j : ℤ) (hj : -1074 ≤ j)
    (hlt : x < 2 ^ (53 + j)) : ulpExp x ≤ j := by
  unfold ulpExp
  have h2 : x < ((2 : ℕ) : ℚ) ^ (53 + j) := by simpa using hlt
  have hlog : Int.log 2 x < 53 + j :=
    (Int.lt_zpow_iff_log_lt (by norm_num) hx).mp h2
  exact max_le (by omega) hj

theorem ulpExp_eq (x : ℚ) (hx : 0 < x) (k : ℤ) (hk : -1022 ≤ k)
    (hlo : 2 ^ k ≤ x) (hhi : x < 2 ^ (k + 1)) : ulpExp x = k - 52 := by
  unfold ulpExp
  have h1 : ((2 : ℕ) : ℚ) ^ k ≤ x := by simpa using hlo
  have h2 : x < ((2 : ℕ) : ℚ) ^ (k + 1) := by simpa using hhi
  have hl1 : k ≤ Int.log 2 x := (Int.zpow_le_iff_le_log (by norm_num) hx).mp h1
  have hl2 : Int.log 2 x < k + 1 := (Int.lt_zpow_iff_log_lt (by norm_num) hx).mp h2
  have hlog : Int.log 2 x = k := by omega
  rw [hlog]
  exact max_eq_left (by omega)

theorem toDouble_exact (x : ℚ) (hx : x ≠ 0) (N : ℤ)
    (hN : |x| / 2 ^ ulpExp |x| = N) (hlt : |x| < 2 ^ 1024) :
    toDouble x = .num x := by
  have hpos : (0 : ℚ) < 2 ^ ulpExp |x| := by positivity
  have hback : (N : ℚ) * 2 ^ ulpExp |x| = |x| := by
    rw [← hN]; field_simp
  unfold toDouble
  rw [if_neg hx, hN, roundHalfEven_intCast, hback, if_neg (not_le.mpr hlt)]
  by_cases hneg : x < 0
  · rw [if_pos hneg, abs_of_neg hneg, neg_neg]
  · rw [if_neg hneg, abs_of_nonneg (not_lt.mp hneg)]

theorem toDouble_scaled (z : ℤ) (m j : ℕ) (hz : z.natAbs = m * 2 ^ j)
    (hm0 : 0 < m) (hm : m < 2 ^ 53) (hj : j ≤ 971) :
    toDouble (z : ℚ) = .num z := by
  have habs : |(z : ℚ)| = (m : ℚ) * 2 ^ j := by
    rw [← Int.cast_abs, Int.abs_eq_natAbs, hz]
    push_cast
    rfl
  have hmq : (0 : ℚ) < m := by exact_mod_cast hm0
  have hpos : 0 < |(z : ℚ)| := by rw [habs]; positivity
  have hzne : (z : ℚ) ≠ 0 := abs_pos.mp hpos
  have hmlt : (m : ℚ) < 2 ^ 53 := by exact_mod_cast hm
  have hle : ulpExp |(z : ℚ)| ≤ (j : ℤ) := by
    apply ulpExp_le _ hpos _ (by omega)
    rw [habs, zpow_add₀ (by norm_num : (2 : ℚ) ≠ 0), zpow_natCast]
    have hpow : (0 : ℚ) < 2 ^ j := by positivity
    have h53 : ((2 : ℚ) ^ (53 : ℤ)) = 2 ^ 53 := by norm_cast
    rw [h53]
    exact mul_lt_mul_of_pos_right hmlt hpow
  obtain ⟨k, hk⟩ := Int.eq_ofNat_of_zero_le (sub_nonneg.mpr hle)
  have hdiv : |(z : ℚ)| / 2 ^ ulpExp |(z : ℚ)| = ((m * 2 ^ k : ℕ) : ℤ) := by
    have he : ulpExp |(z : ℚ)| = (j : ℤ) - k := by omega
    rw [he, habs, zpow_sub₀ (by norm_num : (2 : ℚ) ≠ 0), zpow_natCast,
      zpow_natCast]
    push_cast
    field_simp
    ring
  apply toDouble_exact _ hzne _ hdiv
  rw [habs]
  calc (m : ℚ) * 2 ^ j < 2 ^ 53 * 2 ^ j := by
        apply mul_lt_mul_of_pos_right hmlt; positivity
    _ ≤ 2 ^ 53 * 2 ^ 971 := by
        apply mul_le_mul_of_nonneg_left _ (by positivity)
        exact pow_le_pow_right₀ (by norm_num) hj
    _ = 2 ^ 1024 := by norm_num

theorem toDouble_natCast (n m j : ℕ) (hn : n = m * 2 ^ j) (hm0 : 0 < m)
    (hm : m < 2 ^ 53) (hj : j ≤ 971) : toDouble (n : ℚ) = .num n := by
  have h := toDouble_scaled (n : ℤ) m j (by simpa using hn) hm0 hm hj
  simpa using h

theorem timesNum_of_num (q d k : ℚ) (h : toDouble q = .num d) :
    timesNum q k = toDouble (d * k) := by
  unfold timesNum
  rw [h]

theorem timesNum_exact (q k : ℚ) (hq : toDouble q = .num q)
    (hqk : toDouble (q * k) = .num (q * k)) : timesNum q k = .num (q * k) := by
  rw [timesNum_of_num q q k hq, hqk]

theorem overNum_exact (q k : ℚ) (hq : toDouble q = .num q)
    (hqk : toDouble (q / k) = .num (q / k)) : overNum q k = .num (q / k) := by
  unfold overNum
  rw [hq]
  exact hqk

theorem toDouble_large_amount :
    toDouble 36028797018964100 = .num 36028797018964096 := by
  have hu : ulpExp |(36028797018964100 : ℚ)| = 3 := by
    rw [abs_of_pos (by norm_num)]
    rw [ulpExp_eq _ (by norm_num) 55 (by norm_num) (by norm_num) (by norm_num)]
    norm_num
  have hr : roundHalfEven (|(36028797018964100 : ℚ)| / 2 ^ (3 : ℤ)) =
      4503599627370512 := by
    rw [abs_of_pos (by norm_num)]
    have hf : ⌊(36028797018964100 : ℚ) / 2 ^ (3 : ℤ)⌋ = 4503599627370512 := by
      rw [Int.floor_eq_iff]; norm_num
    unfold roundHalfEven
    rw [hf]
    norm_num
  unfold toDouble
  rw [hu, hr]
  norm_num

/-! ## Checkout sessions -/

/-- C3, as stated, fails for large amounts: the amount `360287970189641` passes
validation, and the `unit_amount` sent to the provider is the double
`36028797018964096`, not `360287970189641 * 100 = 36028797018964100`. -/
theorem large_amount_not_exact :
    (createCheckoutSession sampleEnv sampleRuntime sampleCreate 0
      ⟨.str "premium", .str "Monthly", .num 360287970189641, .str "u1"⟩
      []).response.status = 200 ∧
    (createCheckoutSession sampleEnv sampleRuntime sampleCreate 0
      ⟨.str "premium", .str "Monthly", .num 360287970189641, .str "u1"⟩
      []).calls.map CreateParams.unit_amount = [.num 36028797018964096] ∧
    (36028797018964096 : ℚ) ≠ 360287970189641 * 100 := by
  have htr : (JsVal.num 360287970189641).truthy = true := by simp [JsVal.truthy]
  have hin : toDouble (360287970189641 : ℚ) = .num 360287970189641 := by
    have h := toDouble_natCast 360287970189641 360287970189641 0 (by norm_num)
      (by norm_num) (by norm_num) (by norm_num)
    simpa using h
  have hmul : timesNum 360287970189641 100 = .num 36028797018964096 := by
    have e : (360287970189641 : ℚ) * 100 = 36028797018964100 := by norm_num
    rw [timesNum_of_num _ _ _ hin, e, toDouble_large_amount]
  refine ⟨?_, ?_, by norm_num⟩
  · simp [createCheckoutSession, htr, JsVal.truthy, sampleCreate, Response.json]
  · simp [createCheckoutSession, htr, JsVal.truthy, sampleCreate, createParams,
      JsVal.times, hmul]

/-- C3, amended: for a positive integer amount `a` with `a * 100 < 2 ^ 55`
(up to `360287970189639`) that passes validation, the one call to the provider
carries `unit_amount = a * 100`, and the session-status route on a provider
session with `amount_total = a * 100` reports `amountTotal = a`. -/
theorem amount_round_trip (env : Env) (rt : Runtime)
    (stripeCreate : CreateParams → Except String ProviderSession) (now : Nat)
    (body : CheckoutBody) (store : Sessions) (a : Nat) (ha : 0 < a)
    (hbound : a * 100 < 2 ^ 55)
    (hamount : body.amount = .num a) (hplan : body.planType.truthy = true) :
    (createCheckoutSession env rt stripeCreate now body store).calls.map
        CreateParams.unit_amount = [.num ((a : ℚ) * 100)] ∧
    ∀ (retrieve : String → Except String ProviderSession) (sessionId : String)
      (session : ProviderSession), retrieve sessionId = .ok session →
      session.amount_total = .num ((a : ℚ) * 100) →
      (sessionStatus rt retrieve sessionId).status = 200 ∧
      (sessionStatus rt retrieve sessionId).body.field "amountTotal" = .num a := by
  have hq : (a : ℚ) ≠ 0 := by exact_mod_cast (Nat.pos_iff_ne_zero.mp ha)
  have hda : toDouble (a : ℚ) = .num a :=
    toDouble_natCast a a 0 (by simp) ha (by omega) (by norm_num)
  have hdp : toDouble ((a : ℚ) * 100) = .num ((a : ℚ) * 100) := by
    have h := toDouble_natCast (a * 100) (a * 25) 2 (by ring) (by omega)
      (by omega) (by norm_num)
    simpa using h
  have htimes : timesNum (a : ℚ) 100 = .num ((a : ℚ) * 100) :=
    timesNum_exact _ _ hda hdp
  have hover : overNum ((a : ℚ) * 100) 100 = .num a := by
    have e : (a : ℚ) * 100 / 100 = a := by field_simp
    have h := overNum_exact ((a : ℚ) * 100) 100 hdp (by rw [e]; exact hda)
    rw [e] at h
    exact h
  constructor
  · unfold createCheckoutSession
    have htr : body.amount.truthy = true := by
      rw [hamount]; simp [JsVal.truthy, hq]
    simp only [hplan, htr, Bool.not_true, Bool.or_self, Bool.false_eq_true, if_false]
    cases stripeCreate (createParams env rt body) <;>
      simp [createParams, hamount, JsVal.times, htimes]
  · intro retrieve sessionId session hret htotal
    unfold sessionStatus
    rw [hret]
    simp [Response.json, JsVal.field, JsVal.lookup, htotal, JsVal.over, hover]

theorem amount_round_trip_witness :
    (createCheckoutSession sampleEnv sampleRuntime sampleCreate 0
        ⟨.str "premium", .str "Monthly", .num 50000, .str "u1"⟩ []).calls.map
        CreateParams.unit_amount = [.num 5000000] ∧
    (sessionStatus sampleRuntime (fun _ => sampleCreate
        (createParams sampleEnv sampleRuntime
          ⟨.str "premium", .str "Monthly", .num 50000, .str "u1"⟩))
        "cs_1").body.field "amountTotal" = .num 50000 := by
  have h := amount_round_trip sampleEnv sampleRuntime sampleCreate 0
    ⟨.str "premium", .str "Monthly", .num 50000, .str "u1"⟩ [] 50000
    (by decide) (by norm_num) (by norm_num) rfl
  have e : ((50000 : Nat) : ℚ) * 100 = 5000000 := by norm_num
  refine ⟨by rw [← e]; exact h.1, ?_⟩
  have h2 := (h.2 (fun _ => sampleCreate
        (createParams sampleEnv sampleRuntime
          ⟨.str "premium", .str "Monthly", .num 50000, .str "u1"⟩)) "cs_1"
        _ rfl (by simp [sampleCreate]; norm_num)).2
  simpa using h2

/-- C4, as stated, fails: a request with a plan type and the negative amount
`-5` is not answered with 400; the provider is called with `unit_amount = -500`
and the session is registered. -/
theorem negative_amount_accepted :
    (createCheckoutSession sampleEnv sampleRuntime sampleCreate 0
      ⟨.str "premium", .str "Monthly", .num (-5), .str "u1"⟩ []).response.status = 200 ∧
    (createCheckoutSession sampleEnv sampleRuntime sampleCreate 0
      ⟨.str "premium", .str "Monthly", .num (-5), .str "u1"⟩ []).calls.map
        CreateParams.unit_amount = [.num (-500)] ∧
    JsMap.keys (createCheckoutSession sampleEnv sampleRuntime sampleCreate 0
      ⟨.str "premium", .str "Monthly", .num (-5), .str "u1"⟩ []).store = ["cs_1"] := by
  have htr : (JsVal.num (-5)).truthy = true := by simp [JsVal.truthy]
  refine ⟨?_, ?_, ?_⟩
  · simp [createCheckoutSession, htr, JsVal.truthy, sampleCreate, Response.json]
  · have hin : toDouble ((-5 : ℤ) : ℚ) = .num ((-5 : ℤ) : ℚ) :=
      toDouble_scaled (-5) 5 0 (by decide) (by norm_num) (by norm_num)
        (by norm_num)
    have hout : toDouble ((-500 : ℤ) : ℚ) = .num ((-500 : ℤ) : ℚ) :=
      toDouble_scaled (-500) 500 0 (by decide) (by norm_num) (by norm_num)
        (by norm_num)
    have hmul : timesNum (-5) 100 = .num (-500) := by
      have h := timesNum_exact (-5) 100 (by simpa using hin)
        (by norm_num; simpa using hout)
      rw [h]
      norm_num
    simp [createCheckoutSession, htr, JsVal.truthy, sampleCreate, createParams,
      JsVal.times, hmul]
  · simp [createCheckoutSession, htr, JsVal.truthy, sampleCreate, JsMap.set,
      JsMap.keys]

/-- C4, amended: a request whose amount is falsy (absent, `null`, `0`, `NaN`,
the empty string or `false`) or whose plan type is falsy is answered with 400
and `success: false`, no call to the provider is made and the session store is
unchanged. -/
theorem missing_amount_rejected (env : Env) (rt : Runtime)
    (stripeCreate : CreateParams → Except String ProviderSession) (now : Nat)
    (body : CheckoutBody) (store : Sessions)
    (h : body.amount.truthy = false ∨ body.planType.truthy = false) :
    (createCheckoutSession env rt stripeCreate now body store).response.status = 400 ∧
    (createCheckoutSession env rt stripeCreate now body store).response.body.field
      "success" = .bool false ∧
    (createCheckoutSession env rt stripeCreate now body store).calls = [] ∧
    (createCheckoutSession env rt stripeCreate now body store).store = store := by
  have hc : (!body.planType.truthy || !body.amount.truthy) = true := by
    rcases h with h | h <;> simp [h]
  unfold createCheckoutSession
  rw [if_pos hc]
  simp [JsVal.field, JsVal.lookup]

theorem missing_amount_rejected_witness :
    (createCheckoutSession sampleEnv sampleRuntime sampleCreate 0
      ⟨.str "premium", .str "Monthly", .num 0, .str "u1"⟩
      [("cs_0", sampleRecord "pending")]).response.status = 400 ∧
    (createCheckoutSession sampleEnv sampleRuntime sampleCreate 0
      ⟨.str "premium", .str "Monthly", .num 0, .str "u1"⟩
      [("cs_0", sampleRecord "pending")]).response.body.field
      "success" = .bool false ∧
    (createCheckoutSession sampleEnv sampleRuntime sampleCreate 0
      ⟨.str "premium", .str "Monthly", .num 0, .str "u1"⟩
      [("cs_0", sampleRecord "pending")]).calls = [] ∧
    (createCheckoutSession sampleEnv sampleRuntime sampleCreate 0
      ⟨.str "premium", .str "Monthly", .num 0, .str "u1"⟩
      [("cs_0", sampleRecord "pending")]).store = [("cs_0", sampleRecord "pending")] :=
  missing_amount_rejected sampleEnv sampleRuntime sampleCreate 0
    ⟨.str "premium", .str "Monthly", .num 0, .str "u1"⟩
    [("cs_0", sampleRecord "pending")] (Or.inl (by simp [JsVal.truthy]))

/-- C5, as stated, fails: a pending session `cs_1` is still `pending`, not
`expired`, after a verified `checkout.session.expired` event for `cs_1`. -/
theorem expired_event_leaves_pending :
    statusOf (webhook sampleEnv sampleVerify
      (sampleDelivery (.str "checkout.session.expired"))
      [("cs_1", sampleRecord "pending")]).1 "cs_1" = some "pending" ∧
    statusOf (webhook sampleEnv sampleVerify
      (sampleDelivery (.str "checkout.session.expired"))
      [("cs_1", sampleRecord "pending")]).1 "cs_1" ≠ some "expired" := by
  have h : statusOf (webhook sampleEnv sampleVerify
      (sampleDelivery (.str "checkout.session.expired"))
      [("cs_1", sampleRecord "pending")]).1 "cs_1" = some "pending" := rfl
  refine ⟨h, ?_⟩
  rw [h]
  decide

/-- C5, amended: a verified `checkout.session.expired` event is only logged;
when session id `X` is `pending` before the event it is `pending` after it, and
the whole store is unchanged. -/
theorem expired_event_no_transition (env : Env) (constructEvent : ConstructEvent)
    (req : WebhookReq) (store : Sessions) (X : String) (ev : StripeEvent)
    (hX : statusOf store X = some "pending")
    (hok : constructEvent req.body req.sig env.webhookSecret = .ok ev)
    (htype : ev.type = "checkout.session.expired") (_hid : ev.objectId = X) :
    statusOf (webhook env constructEvent req store).1 X = some "pending" ∧
    (webhook env constructEvent req store).1 = store := by
  have hne : ev.type ≠ "checkout.session.completed" := by
    rw [htype]; decide
  have hs : (webhook env constructEvent req store).1 = store := by
    unfold webhook
    rw [hok]
    exact applyEvent_of_not_completed ev store hne
  exact ⟨by rw [hs]; exact hX, hs⟩

theorem expired_event_no_transition_witness :
    statusOf (webhook sampleEnv sampleVerify
      (sampleDelivery (.str "checkout.session.expired"))
      [("cs_1", sampleRecord "pending")]).1 "cs_1" = some "pending" ∧
    (webhook sampleEnv sampleVerify
      (sampleDelivery (.str "checkout.session.expired"))
      [("cs_1", sampleRecord "pending")]).1 = [("cs_1", sampleRecord "pending")] :=
  expired_event_no_transition sampleEnv sampleVerify
    (sampleDelivery (.str "checkout.session.expired"))
    [("cs_1", sampleRecord "pending")] "cs_1"
    ⟨"checkout.session.expired", "cs_1"⟩ rfl rfl rfl rfl

/-- C6: for a request that passes validation, when the provider returns a
session with id `i` and url `u` the store afterwards maps `i` to a `pending`
record with the userId, planType, planName and amount of the request, every
other key is mapped as before, and the response is 200 with `success: true`,
`sessionId: i` and `url: u`; when the provider call fails the store is unchanged
and the response is 500 with `success: false`. -/
theorem session_registration (env : Env) (rt : Runtime)
    (stripeCreate : CreateParams → Except String ProviderSession) (now : Nat)
    (body : CheckoutBody) (store : Sessions)
    (hplan : body.planType.truthy = true) (hamount : body.amount.truthy = true) :
    (∀ session : ProviderSession,
      stripeCreate (createParams env rt body) = .ok session →
      JsMap.get (createCheckoutSession env rt stripeCreate now body store).store
          session.id =
        some { userId := body.userId, planType := body.planType,
               planName := body.planName, amount := body.amount,
               status := "pending", createdAt := now } ∧
      (∀ k : String, k ≠ session.id →
        JsMap.get (createCheckoutSession env rt stripeCreate now body store).store k =
          JsMap.get store k) ∧
      (createCheckoutSession env rt stripeCreate now body store).response.status = 200 ∧
      (createCheckoutSession env rt stripeCreate now body store).response.body.field
        "success" = .bool true ∧
      (createCheckoutSession env rt stripeCreate now body store).response.body.field
        "sessionId" = .str session.id ∧
      (createCheckoutSession env rt stripeCreate now body store).response.body.field
        "url" = session.url) ∧
    (∀ msg : String, stripeCreate (createParams env rt body) = .error msg →
      (createCheckoutSession env rt stripeCreate now body store).store = store ∧
      (createCheckoutSession env rt stripeCreate now body store).response.status = 500 ∧
      (createCheckoutSession env rt stripeCreate now body store).response.body.field
        "success" = .bool false) := by
  have hc : ¬ ((!body.planType.truthy || !body.amount.truthy) = true) := by
    simp [hplan, hamount]
  constructor
  · intro session hok
    unfold createCheckoutSession
    rw [if_neg hc]
    simp only [hok]
    refine ⟨?_, ?_, rfl, ?_, ?_, ?_⟩
    · rw [JsMap.get_set, if_pos rfl]
    · intro k hk
      rw [JsMap.get_set, if_neg hk]
    · simp [Response.json, JsVal.field, JsVal.lookup]
    · simp [Response.json, JsVal.field, JsVal.lookup]
    · simp [Response.json, JsVal.field, JsVal.lookup]
  · intro msg herr
    unfold createCheckoutSession
    rw [if_neg hc]
    simp [herr, JsVal.field, JsVal.lookup]

theorem session_registration_witness :
    JsMap.get (createCheckoutSession sampleEnv sampleRuntime sampleCreate 7
        ⟨.str "premium", .str "Monthly", .num 50000, .str "u1"⟩
        [("cs_0", sampleRecord "completed")]).store "cs_1" =
      some { userId := .str "u1", planType := .str "premium",
             planName := .str "Monthly", amount := .num 50000,
             status := "pending", createdAt := 7 } ∧
    JsMap.get (createCheckoutSession sampleEnv sampleRuntime sampleCreate 7
        ⟨.str "premium", .str "Monthly", .num 50000, .str "u1"⟩
        [("cs_0", sampleRecord "completed")]).store "cs_0" =
      some (sampleRecord "completed") ∧
    (createCheckoutSession sampleEnv sampleRuntime sampleCreate 7
        ⟨.str "premium", .str "Monthly", .num 50000, .str "u1"⟩
        [("cs_0", sampleRecord "completed")]).response.body.field "sessionId" =
      .str "cs_1" ∧
    (createCheckoutSession sampleEnv sampleRuntime failingCreate 7
        ⟨.str "premium", .str "Monthly", .num 50000, .str "u1"⟩
        [("cs_0", sampleRecord "completed")]).response.status = 500 := by
  have hok := (session_registration sampleEnv sampleRuntime sampleCreate 7
    ⟨.str "premium", .str "Monthly", .num 50000, .str "u1"⟩
    [("cs_0", sampleRecord "completed")] rfl (by simp [JsVal.truthy])).1 _ rfl
  have hfail := (session_registration sampleEnv sampleRuntime failingCreate 7
    ⟨.str "premium", .str "Monthly", .num 50000, .str "u1"⟩
    [("cs_0", sampleRecord "completed")] rfl (by simp [JsVal.truthy])).2 _ rfl
  exact ⟨hok.1, (hok.2.1 "cs_0" (by decide)).trans rfl, hok.2.2.2.2.1, hfail.2.1⟩

/-- C7: on a verified event the webhook handler keeps the set of session ids;
a `checkout.session.completed` event with object id `X` leaves every other
session as it was and, when `X` is registered, changes only the status of its
record, to `completed` (when `X` is not registered the store is unchanged); an
event of any other type leaves the whole store unchanged; the response is 200
with body `received: true` in all cases. -/
theorem webhook_frame (env : Env) (constructEvent : ConstructEvent)
    (req : WebhookReq) (store : Sessions) (ev : StripeEvent)
    (hok : constructEvent req.body req.sig env.webhookSecret = .ok ev) :
    JsMap.keys (webhook env constructEvent req store).1 = JsMap.keys store ∧
    (ev.type = "checkout.session.completed" →
      (∀ k : String, k ≠ ev.objectId →
        JsMap.get (webhook env constructEvent req store).1 k = JsMap.get store k) ∧
      (∀ r : SessionRecord, JsMap.get store ev.objectId = some r →
        JsMap.get (webhook env constructEvent req store).1 ev.objectId =
          some { userId := r.userId, planType := r.planType,
                 planName := r.planName, amount := r.amount,
                 status := "completed", createdAt := r.createdAt }) ∧
      (JsMap.get store ev.objectId = none →
        (webhook env constructEvent req store).1 = store)) ∧
    (ev.type ≠ "checkout.session.completed" →
      (webhook env constructEvent req store).1 = store) ∧
    (webhook env constructEvent req store).2.status = 200 ∧
    (webhook env constructEvent req store).2.body = .obj [("received", .bool true)] := by
  have hw : webhook env constructEvent req store =
      (applyEvent ev store, Response.json (.obj [("received", .bool true)])) := by
    unfold webhook
    rw [hok]
  rw [hw]
  refine ⟨applyEvent_keys ev store, ?_, applyEvent_of_not_completed ev store, rfl, rfl⟩
  intro htype
  refine ⟨?_, ?_, ?_⟩
  · intro k hk
    show JsMap.get (applyEvent ev store) k = JsMap.get store k
    unfold applyEvent
    rw [if_pos htype]
    split
    · rw [JsMap.get_modify, if_neg hk]
    · rfl
  · intro r hr
    show JsMap.get (applyEvent ev store) ev.objectId = _
    have hhas : JsMap.has store ev.objectId = true := by
      simp [JsMap.has, hr]
    unfold applyEvent
    rw [if_pos htype, if_pos hhas, JsMap.get_modify, if_pos rfl, hr]
    rfl
  · intro hnone
    show applyEvent ev store = store
    have hhas : ¬ (JsMap.has store ev.objectId = true) := by
      simp [JsMap.has, hnone]
    unfold applyEvent
    rw [if_pos htype, if_neg hhas]

theorem webhook_frame_witness :
    JsMap.keys (webhook sampleEnv sampleVerify
      (sampleDelivery (.str "checkout.session.completed"))
      [("cs_0", sampleRecord "pending"), ("cs_1", sampleRecord "pending")]).1 =
      ["cs_0", "cs_1"] ∧
    JsMap.get (webhook sampleEnv sampleVerify
      (sampleDelivery (.str "checkout.session.completed"))
      [("cs_0", sampleRecord "pending"), ("cs_1", sampleRecord "pending")]).1 "cs_0" =
      some (sampleRecord "pending") ∧
    JsMap.get (webhook sampleEnv sampleVerify
      (sampleDelivery (.str "checkout.session.completed"))
      [("cs_0", sampleRecord "pending"), ("cs_1", sampleRecord "pending")]).1 "cs_1" =
      some (sampleRecord "completed") := by
  have h := webhook_frame sampleEnv sampleVerify
    (sampleDelivery (.str "checkout.session.completed"))
    [("cs_0", sampleRecord "pending"), ("cs_1", sampleRecord "pending")]
    ⟨"checkout.session.completed", "cs_1"⟩ rfl
  exact ⟨h.1, ((h.2.1 rfl).1 "cs_0" (by decide)).trans rfl,
    (h.2.1 rfl).2.1 (sampleRecord "pending") rfl⟩

/-! ## The body handed to the signature check -/

theorem webhookBody_json (jsonParse : List Nat → Except String JsVal)
    (formParse : List Nat → JsVal) (req : HttpReq)
    (htype : req.mediaType = "application/json") (hbody : req.hasBody = true)
    (hflag : req.parsedFlag = false) (hlen : req.wire.length ≤ bodyLimit) :
    webhookBody jsonParse formParse req =
      match jsonParse req.wire with
      | .ok v => .ok (.parsed v)
      | .error msg => .error ⟨400, msg⟩ := by
  have hl : ¬ (req.wire.length > bodyLimit) := Nat.not_lt.mpr hlen
  unfold webhookBody webhookChain
  have h1 : expressJson jsonParse req =
      match jsonParse req.wire with
      | .ok v => .ok { req with body := some (.parsed v), parsedFlag := true }
      | .error msg => .error ⟨400, msg⟩ := by
    simp only [expressJson, bodyParser, hflag, hbody, htype, hl]
    cases jsonParse req.wire <;> simp
  rw [h1]
  cases jsonParse req.wire with
  | error msg => rfl
  | ok v =>
    simp [bind, Except.bind, expressUrlencoded, expressRaw, bodyParser, Except.map]

/-- C8 at the failing input: for a JSON webhook delivery the value that reaches
`stripe.webhooks.constructEvent` through the middleware of `server.js` is never
the buffer of received bytes, whatever the JSON parser does; with a parser that
accepts the document it is the parsed object. -/
theorem webhook_body_not_raw :
    (∀ (jsonParse : List Nat → Except String JsVal) (formParse : List Nat → JsVal),
      webhookBody jsonParse formParse sampleWebhookPost ≠
        .ok (.raw sampleWebhookPost.wire)) ∧
    webhookBody sampleJsonParse sampleFormParse sampleWebhookPost =
      .ok (.parsed (.obj [])) := by
  constructor
  · intro jsonParse formParse h
    rw [webhookBody_json jsonParse formParse sampleWebhookPost rfl rfl rfl
      (by decide)] at h
    cases hp : jsonParse sampleWebhookPost.wire with
    | error msg => rw [hp] at h; cases h
    | ok v =>
      rw [hp] at h
      injection h with h
      cases h
  · rw [webhookBody_json sampleJsonParse sampleFormParse sampleWebhookPost rfl rfl
      rfl (by decide)]
    rfl

/-! ## Upstream 404 on the metadata routes -/

/-- C9: on a cache miss, when the upstream events call is rejected with HTTP
status 404, the events route answers with the default status 200,
`success: true` and `data: []`, whatever the artist name; the handler is a total
function, so no exception escapes it. -/
theorem events_not_found_is_empty (rt : Runtime) (fetch : Upstream) (now : Nat)
    (artistName : String) (cache : Cache) (e : JsError)
    (hmiss : (cacheGet cache now ("events_" ++ rt.lower artistName)).1.truthy = false)
    (hfail : (fetch (.bandsintownEvents artistName) now).result = .error e)
    (h404 : e.response.map ErrResponse.status = some 404) :
    (eventsRoute rt fetch now artistName cache).response.status = 200 ∧
    (eventsRoute rt fetch now artistName cache).response.body.field "success" =
      .bool true ∧
    (eventsRoute rt fetch now artistName cache).response.body.field "data" =
      .arr [] := by
  have htry : eventsTry rt (fetch (.bandsintownEvents artistName) now)
      (now + (fetch (.bandsintownEvents artistName) now).elapsed) artistName
      ("events_" ++ rt.lower artistName)
      (cacheGet cache now ("events_" ++ rt.lower artistName)).2 = .error e := by
    unfold eventsTry
    rw [hfail]
    rfl
  unfold eventsRoute
  simp only [hmiss, Bool.false_eq_true, if_false, htry, h404, if_true]
  simp [Response.json, JsVal.field, JsVal.lookup]

theorem events_not_found_is_empty_witness :
    (eventsRoute sampleRuntime upstream404 0 "Nobody" []).response.status = 200 ∧
    (eventsRoute sampleRuntime upstream404 0 "Nobody" []).response.body.field
      "success" = .bool true ∧
    (eventsRoute sampleRuntime upstream404 0 "Nobody" []).response.body.field
      "data" = .arr [] :=
  events_not_found_is_empty sampleRuntime upstream404 0 "Nobody" [] notFound
    rfl rfl rfl

/-- C10, as stated, fails: on an empty cache, an upstream 404 makes the
song-lookup route and the track-lookup route answer 500 with `success: false`. -/
theorem song_track_not_found_is_failure :
    (songRoute upstream404 0 "42" []).response.status = 500 ∧
    (songRoute upstream404 0 "42" []).response.body.field "success" = .bool false ∧
    (trackRoute upstream404 0 "abc" ⟨[], []⟩).response.status = 500 ∧
    (trackRoute upstream404 0 "abc" ⟨[], []⟩).response.body.field "success" =
      .bool false := by
  refine ⟨rfl, ?_, rfl, ?_⟩
  · simp [songRoute, cacheGet, JsMap.get, JsVal.truthy, upstream404, bind,
      Except.bind, failure, JsVal.field, JsVal.lookup]
  · simp [trackRoute, getSpotifyToken, cacheGet, JsMap.get, JsVal.truthy,
      upstream404, bind, Except.bind, failure, JsVal.field, JsVal.lookup,
      JsVal.prop]

/-- C10, amended: on a cache miss, an upstream failure with HTTP status 404
makes the song-lookup route answer 500 with `success: false` and the message
`Failed to get song details`, and makes the track-lookup route (once a token
has been obtained) answer 500 with `success: false` and the message
`Failed to get track details`; neither route stores anything in its cache. -/
theorem song_track_not_found (fetch : Upstream) (now : Nat) (e : JsError)
    (_h404 : e.response.map ErrResponse.status = some 404) :
    (∀ (songId : String) (cache : Cache),
      (cacheGet cache now ("song_" ++ songId)).1.truthy = false →
      (fetch (.geniusSong songId) now).result = .error e →
      (songRoute fetch now songId cache).response.status = 500 ∧
      (songRoute fetch now songId cache).response.body.field "success" =
        .bool false ∧
      (songRoute fetch now songId cache).response.body.field "message" =
        .str "Failed to get song details" ∧
      (songRoute fetch now songId cache).cache =
        (cacheGet cache now ("song_" ++ songId)).2) ∧
    (∀ (trackId : String) (st : SpotifyState) (token : JsVal),
      (cacheGet st.trackCache now ("track_" ++ trackId)).1.truthy = false →
      (getSpotifyToken fetch now st.tokenCache).result = .ok token →
      (fetch (.spotifyTrack trackId token)
        (now + (getSpotifyToken fetch now st.tokenCache).elapsed)).result = .error e →
      (trackRoute fetch now trackId st).response.status = 500 ∧
      (trackRoute fetch now trackId st).response.body.field "success" =
        .bool false ∧
      (trackRoute fetch now trackId st).response.body.field "message" =
        .str "Failed to get track details" ∧
      (trackRoute fetch now trackId st).state.trackCache =
        (cacheGet st.trackCache now ("track_" ++ trackId)).2) := by
  constructor
  · intro songId cache hmiss hfail
    unfold songRoute
    simp only [hmiss, Bool.false_eq_true, if_false, hfail]
    simp [bind, Except.bind, failure, JsVal.field, JsVal.lookup]
  · intro trackId st token hmiss htok hfail
    unfold trackRoute
    simp only [hmiss, Bool.false_eq_true, if_false, htok, hfail]
    simp [bind, Except.bind, failure, JsVal.field, JsVal.lookup]

theorem song_track_not_found_witness :
    (songRoute upstream404 0 "42" []).response.body.field "message" =
      .str "Failed to get song details" ∧
    (trackRoute upstream404 0 "abc" ⟨[], []⟩).response.body.field "message" =
      .str "Failed to get track details" := by
  have h := song_track_not_found upstream404 0 notFound rfl
  exact ⟨(h.1 "42" [] rfl rfl).2.2.1,
    (h.2 "abc" ⟨[], []⟩ (.str "tok") rfl rfl rfl).2.2.1⟩

/-! ## Lemmas on thrown errors and on the cache -/

theorem bind_ok_iff {ε α β : Type} (x : Except ε α) (f : α → Except ε β) (v : β) :
    (x >>= f) = .ok v ↔ ∃ a, x = .ok a ∧ f a = .ok v := by
  cases x <;> simp [bind, Except.bind]

theorem bind_error_iff {ε α β : Type} (x : Except ε α) (f : α → Except ε β)
    (e : ε) :
    (x >>= f) = .error e ↔ x = .error e ∨ ∃ a, x = .ok a ∧ f a = .error e := by
  cases x <;> simp [bind, Except.bind]

theorem pure_ok_iff {ε α : Type} (a v : α) :
    (pure a : Except ε α) = .ok v ↔ a = v := by
  simp [pure, Except.pure]

theorem pure_ne_error {ε α : Type} (a : α) (e : ε) :
    ((pure a : Except ε α) = .error e) ↔ False := by
  simp [pure, Except.pure]

theorem prop_of_not_nullish (v : JsVal) (name : String)
    (h : v.nullish = false) : v.prop name = .ok (v.field name) := by
  cases v <;> simp [JsVal.nullish] at h <;> rfl

theorem prop_ok (v : JsVal) (name : String) (w : JsVal)
    (h : v.prop name = .ok w) : v.nullish = false ∧ w = v.field name := by
  cases v <;> simp [JsVal.prop, JsVal.nullish] at h ⊢ <;> exact h.symm

theorem prop_error (v : JsVal) (name : String) (e : JsError)
    (h : v.prop name = .error e) : e.response = none := by
  cases v <;> simp [JsVal.prop, typeError] at h <;> rw [← h]

theorem first_error (v : JsVal) (e : JsError)
    (h : v.first = .error e) : e.response = none := by
  cases v <;> simp [JsVal.first, typeError] at h <;> rw [← h]

theorem splitT_error (v : JsVal) (e : JsError)
    (h : splitT v = .error e) : e.response = none := by
  cases v <;> simp [splitT, typeError] at h <;> rw [← h]

theorem cacheGet_cacheSet (cache : Cache) (ttl t now : Nat) (key : String)
    (v : JsVal) (httl : ttl ≠ 0) :
    (now ≤ t + ttl * 1000 →
      cacheGet (cacheSet cache ttl t key v) now key =
        (v, cacheSet cache ttl t key v)) ∧
    (t + ttl * 1000 < now →
      (cacheGet (cacheSet cache ttl t key v) now key).1 = .undefined) := by
  have hget : JsMap.get (cacheSet cache ttl t key v) key =
      some ⟨t + ttl * 1000, v⟩ := by
    unfold cacheSet
    rw [JsMap.get_set, if_pos rfl, if_neg httl]
  constructor
  · intro hle
    unfold cacheGet
    rw [hget]
    have : ¬ (t + ttl * 1000 ≠ 0 ∧ t + ttl * 1000 < now) := fun h =>
      absurd h.2 (Nat.not_lt.mpr hle)
    simp only [this, if_false]
  · intro hlt
    unfold cacheGet
    rw [hget]
    have : t + ttl * 1000 ≠ 0 ∧ t + ttl * 1000 < now :=
      ⟨fun h => by omega, hlt⟩
    dsimp only
    rw [if_pos this]

theorem cacheGet_miss (cache : Cache) (now : Nat) (key : String)
    (h : JsMap.get cache key = none) :
    cacheGet cache now key = (.undefined, cache) := by
  unfold cacheGet
  rw [h]

theorem transformSong_truthy (data songData : JsVal)
    (h : transformSong data = .ok songData) : songData.truthy = true := by
  unfold transformSong at h
  simp only [bind_ok_iff, pure_ok_iff] at h
  obtain ⟨_, _, _, _, _, _, _, _, _, _, _, _, _, _, _, _, _, _, _, _, _, _, _,
    _, _, _, _, _, h⟩ := h
  rw [← h]
  rfl

theorem songRoute_fresh (fetch : Upstream) (now : Nat) (songId : String)
    (cache : Cache) (data songData : JsVal)
    (hempty : JsMap.get cache ("song_" ++ songId) = none)
    (hok : (fetch (.geniusSong songId) now).result = .ok data)
    (hsong : transformSong data = .ok songData) :
    songRoute fetch now songId cache =
      ⟨cacheSet cache geniusTTL (now + (fetch (.geniusSong songId) now).elapsed)
          ("song_" ++ songId) songData,
        Response.json (.obj [("success", .bool true), ("data", songData),
          ("from_cache", .bool false),
          ("note", .str "Full lyrics available at genius_url")]),
        [.geniusSong songId]⟩ := by
  unfold songRoute
  simp [cacheGet_miss cache now _ hempty, JsVal.truthy, hok, bind, Except.bind,
    hsong]

theorem songRoute_hit (fetch : Upstream) (now : Nat) (songId : String)
    (cache : Cache) (v : JsVal)
    (hget : cacheGet cache now ("song_" ++ songId) = (v, cache))
    (hv : v.truthy = true) :
    songRoute fetch now songId cache = ⟨cache, fromCache v, []⟩ := by
  unfold songRoute
  simp [hget, hv]

/-! ## Read-through caching and the token cache -/

/-- C11: starting from a cache without an entry for song id `s`, when the
upstream answers the first song lookup with a song payload, a second lookup of
`s` made after the first has completed and before the 7-day TTL has elapsed
makes no upstream call (one call over the two requests), returns the data of
the first, and is tagged `from_cache: true` while the first is tagged
`from_cache: false`. -/
theorem song_read_through (fetch : Upstream) (now now2 : Nat) (songId : String)
    (cache : Cache) (data songData : JsVal)
    (hempty : JsMap.get cache ("song_" ++ songId) = none)
    (hok : (fetch (.geniusSong songId) now).result = .ok data)
    (hsong : transformSong data = .ok songData)
    (_hafter : now + (fetch (.geniusSong songId) now).elapsed ≤ now2)
    (hbefore : now2 <
      now + (fetch (.geniusSong songId) now).elapsed + geniusTTL * 1000) :
    (songRoute fetch now songId cache).calls = [.geniusSong songId] ∧
    (songRoute fetch now2 songId (songRoute fetch now songId cache).cache).calls =
      [] ∧
    (songRoute fetch now songId cache).response.body.field "data" = songData ∧
    (songRoute fetch now2 songId
      (songRoute fetch now songId cache).cache).response.body.field "data" =
      songData ∧
    (songRoute fetch now songId cache).response.body.field "from_cache" =
      .bool false ∧
    (songRoute fetch now2 songId
      (songRoute fetch now songId cache).cache).response.body.field "from_cache" =
      .bool true := by
  rw [songRoute_fresh fetch now songId cache data songData hempty hok hsong]
  have hhit := (cacheGet_cacheSet cache geniusTTL
    (now + (fetch (.geniusSong songId) now).elapsed) now2 ("song_" ++ songId)
    songData (by decide)).1 (Nat.le_of_lt hbefore)
  rw [songRoute_hit fetch now2 songId _ songData hhit
    (transformSong_truthy data songData hsong)]
  simp [Response.json, fromCache, JsVal.field, JsVal.lookup]

theorem song_read_through_witness :
    (songRoute (constUpstream sampleSongPayload) 0 "42" []).calls =
      [.geniusSong "42"] ∧
    (songRoute (constUpstream sampleSongPayload) 1000 "42"
      (songRoute (constUpstream sampleSongPayload) 0 "42" []).cache).calls = [] ∧
    (songRoute (constUpstream sampleSongPayload) 1000 "42"
      (songRoute (constUpstream sampleSongPayload) 0 "42"
        []).cache).response.body.field "from_cache" = .bool true := by
  have h := song_read_through (constUpstream sampleSongPayload) 0 1000 "42" []
    sampleSongPayload _ rfl rfl rfl (by decide) (by decide)
  exact ⟨h.1, h.2.1, h.2.2.2.2.2⟩

theorem getSpotifyToken_fresh (fetch : Upstream) (now : Nat) (tokenCache : Cache)
    (data token : JsVal)
    (hmiss : (cacheGet tokenCache now "spotify_token").1.truthy = false)
    (hok : (fetch .spotifyToken now).result = .ok data)
    (htoken : data.prop "access_token" = .ok token) :
    getSpotifyToken fetch now tokenCache =
      ⟨cacheSet (cacheGet tokenCache now "spotify_token").2 tokenTTL
          (now + (fetch .spotifyToken now).elapsed) "spotify_token" token,
        .ok token, [.spotifyToken], (fetch .spotifyToken now).elapsed⟩ := by
  unfold getSpotifyToken
  simp [hmiss, hok, bind, Except.bind, htoken]

theorem getSpotifyToken_hit (fetch : Upstream) (now : Nat) (tokenCache : Cache)
    (v : JsVal) (hget : cacheGet tokenCache now "spotify_token" = (v, tokenCache))
    (hv : v.truthy = true) :
    getSpotifyToken fetch now tokenCache = ⟨tokenCache, .ok v, [], 0⟩ := by
  unfold getSpotifyToken
  simp [hget, hv]

theorem getSpotifyToken_calls_nil (fetch : Upstream) (now : Nat)
    (tokenCache : Cache) (h : (getSpotifyToken fetch now tokenCache).calls = []) :
    (cacheGet tokenCache now "spotify_token").1.truthy = true := by
  by_cases ht : (cacheGet tokenCache now "spotify_token").1.truthy = true
  · exact ht
  · exfalso
    have hf : (cacheGet tokenCache now "spotify_token").1.truthy = false := by
      simpa using ht
    unfold getSpotifyToken at h
    simp only [hf, Bool.false_eq_true, if_false] at h
    split at h <;> simp at h

/-- C12, as stated, fails: the upstream declares the token valid for 3600
seconds, the second call is made 3550 seconds after the first token arrived,
and it performs a second upstream call and returns another token. -/
theorem token_refetched_within_validity :
    (getSpotifyToken (tokenUpstream 3600) 0 []).result = .ok (.str "tok_a") ∧
    (getSpotifyToken (tokenUpstream 3600) 3550005
      (getSpotifyToken (tokenUpstream 3600) 0 []).tokenCache).result =
      .ok (.str "tok_b") ∧
    (getSpotifyToken (tokenUpstream 3600) 0 []).calls ++
      (getSpotifyToken (tokenUpstream 3600) 3550005
        (getSpotifyToken (tokenUpstream 3600) 0 []).tokenCache).calls =
      [.spotifyToken, .spotifyToken] ∧
    3550005 < 5 + 3600 * 1000 := by
  refine ⟨rfl, ?_, ?_, by decide⟩
  · simp [getSpotifyToken, cacheGet, cacheSet, cacheDel, JsMap.get, JsMap.set,
      JsVal.truthy, tokenUpstream, tokenTTL, bind, Except.bind, JsVal.prop,
      JsVal.field, JsVal.lookup]
  · simp [getSpotifyToken, cacheGet, cacheSet, cacheDel, JsMap.get, JsMap.set,
      JsVal.truthy, tokenUpstream, tokenTTL, bind, Except.bind, JsVal.prop,
      JsVal.field, JsVal.lookup]

/-- C12, amended: starting from a token cache without a token, when the first
call to `getSpotifyToken` obtains a truthy token, a second call made no later
than 3500 seconds (the fixed TTL of the token cache) after that token arrived
returns the same token and makes no upstream call, so one call to the auth
endpoint is performed in total. -/
theorem token_reuse_within_ttl (fetch : Upstream) (now now2 : Nat)
    (tokenCache : Cache) (data token : JsVal)
    (hempty : JsMap.get tokenCache "spotify_token" = none)
    (hok : (fetch .spotifyToken now).result = .ok data)
    (htoken : data.prop "access_token" = .ok token)
    (htruthy : token.truthy = true)
    (_hafter : now + (fetch .spotifyToken now).elapsed ≤ now2)
    (hwithin : now2 ≤ now + (fetch .spotifyToken now).elapsed + tokenTTL * 1000) :
    (getSpotifyToken fetch now tokenCache).result = .ok token ∧
    (getSpotifyToken fetch now2
      (getSpotifyToken fetch now tokenCache).tokenCache).result = .ok token ∧
    (getSpotifyToken fetch now tokenCache).calls ++
      (getSpotifyToken fetch now2
        (getSpotifyToken fetch now tokenCache).tokenCache).calls =
      [.spotifyToken] := by
  have hmiss : (cacheGet tokenCache now "spotify_token").1.truthy = false := by
    rw [cacheGet_miss tokenCache now _ hempty]; rfl
  rw [getSpotifyToken_fresh fetch now tokenCache data token hmiss hok htoken]
  have hhit := (cacheGet_cacheSet (cacheGet tokenCache now "spotify_token").2
    tokenTTL (now + (fetch .spotifyToken now).elapsed) now2 "spotify_token"
    token (by decide)).1 hwithin
  rw [getSpotifyToken_hit fetch now2 _ token hhit htruthy]
  exact ⟨rfl, rfl, rfl⟩

theorem token_reuse_within_ttl_witness :
    (getSpotifyToken (tokenUpstream 3600) 0 []).result = .ok (.str "tok_a") ∧
    (getSpotifyToken (tokenUpstream 3600) 3500005
      (getSpotifyToken (tokenUpstream 3600) 0 []).tokenCache).result =
      .ok (.str "tok_a") ∧
    (getSpotifyToken (tokenUpstream 3600) 0 []).calls ++
      (getSpotifyToken (tokenUpstream 3600) 3500005
        (getSpotifyToken (tokenUpstream 3600) 0 []).tokenCache).calls =
      [.spotifyToken] :=
  token_reuse_within_ttl (tokenUpstream 3600) 0 3500005 []
    (.obj [("access_token", .str "tok_a"), ("expires_in", .num 3600)])
    (.str "tok_a") rfl rfl rfl rfl (by decide) (by decide)

theorem getSpotifyToken_refetch_after_ttl (fetch : Upstream) (now now2 : Nat)
    (tokenCache : Cache) (data token : JsVal)
    (hmiss : (cacheGet tokenCache now "spotify_token").1.truthy = false)
    (hok : (fetch .spotifyToken now).result = .ok data)
    (htoken : data.prop "access_token" = .ok token)
    (hlate : now + (fetch .spotifyToken now).elapsed + tokenTTL * 1000 < now2) :
    (getSpotifyToken fetch now2
      (getSpotifyToken fetch now tokenCache).tokenCache).calls =
      [.spotifyToken] := by
  rw [getSpotifyToken_fresh fetch now tokenCache data token hmiss hok htoken]
  have hgone := (cacheGet_cacheSet (cacheGet tokenCache now "spotify_token").2
    tokenTTL (now + (fetch .spotifyToken now).elapsed) now2 "spotify_token"
    token (by decide)).2 hlate
  have hf : (cacheGet (cacheSet (cacheGet tokenCache now "spotify_token").2
      tokenTTL (now + (fetch .spotifyToken now).elapsed) "spotify_token" token)
      now2 "spotify_token").1.truthy = false := by
    rw [hgone]; rfl
  unfold getSpotifyToken
  simp only [hf, Bool.false_eq_true, if_false]
  split <;> rfl

/-- C13, as stated, fails: when the upstream declares the token valid for 1800
seconds it is still stored for 3500 seconds, which is not shorter, and a call
made 2000 seconds after the token arrived gets the cached token although the
declared expiry has passed. -/
theorem token_ttl_ignores_declared_expiry :
    JsMap.get (getSpotifyToken (tokenUpstream 1800) 0 []).tokenCache
      "spotify_token" = some ⟨5 + 3500 * 1000, .str "tok_a"⟩ ∧
    ¬ ((3500 : ℚ) < 1800) ∧
    (getSpotifyToken (tokenUpstream 1800) 2000005
      (getSpotifyToken (tokenUpstream 1800) 0 []).tokenCache).result =
      .ok (.str "tok_a") ∧
    (getSpotifyToken (tokenUpstream 1800) 2000005
      (getSpotifyToken (tokenUpstream 1800) 0 []).tokenCache).calls = [] ∧
    5 + 1800 * 1000 < 2000005 := by
  refine ⟨rfl, by norm_num, ?_, ?_, by decide⟩
  · simp [getSpotifyToken, cacheGet, cacheSet, JsMap.get, JsMap.set,
      JsVal.truthy, tokenUpstream, tokenTTL, bind, Except.bind, JsVal.prop,
      JsVal.field, JsVal.lookup]
  · simp [getSpotifyToken, cacheGet, cacheSet, JsMap.get, JsMap.set,
      JsVal.truthy, tokenUpstream, tokenTTL, bind, Except.bind, JsVal.prop,
      JsVal.field, JsVal.lookup]

/-- C13, amended: a successful token acquisition stores the token under the
fixed TTL of 3500 seconds, counted from the arrival of the response, without
reading `expires_in`; whenever the upstream declares an expiry of more than
3500 seconds, that TTL is strictly shorter than the declared expiry, and a
later call that is answered from the cache happens before the declared expiry
(counted from the same instant). -/
theorem token_safety_margin (fetch : Upstream) (now : Nat) (tokenCache : Cache)
    (data token : JsVal) (x : ℚ)
    (hmiss : (cacheGet tokenCache now "spotify_token").1.truthy = false)
    (hok : (fetch .spotifyToken now).result = .ok data)
    (htoken : data.prop "access_token" = .ok token)
    (_hdeclared : data.field "expires_in" = .num x)
    (hlong : (3500 : ℚ) < x) :
    tokenTTL = 3500 ∧
    JsMap.get (getSpotifyToken fetch now tokenCache).tokenCache "spotify_token" =
      some ⟨now + (fetch .spotifyToken now).elapsed + tokenTTL * 1000, token⟩ ∧
    (tokenTTL : ℚ) < x ∧
    ∀ now2 : Nat,
      (getSpotifyToken fetch now2
        (getSpotifyToken fetch now tokenCache).tokenCache).calls = [] →
      (now2 : ℚ) < ((now + (fetch .spotifyToken now).elapsed : Nat) : ℚ) + x * 1000 := by
  have hstored : JsMap.get (getSpotifyToken fetch now tokenCache).tokenCache
      "spotify_token" =
      some ⟨now + (fetch .spotifyToken now).elapsed + tokenTTL * 1000, token⟩ := by
    rw [getSpotifyToken_fresh fetch now tokenCache data token hmiss hok htoken]
    show JsMap.get (cacheSet _ _ _ _ _) _ = _
    unfold cacheSet
    rw [JsMap.get_set, if_pos rfl, if_neg (by decide)]
  refine ⟨rfl, hstored, by simpa [tokenTTL] using hlong, ?_⟩
  intro now2 hcalls
  have htr := getSpotifyToken_calls_nil fetch now2 _ hcalls
  have hle : now2 ≤ now + (fetch .spotifyToken now).elapsed + tokenTTL * 1000 := by
    by_contra hgt
    have hexp : now + (fetch .spotifyToken now).elapsed + tokenTTL * 1000 ≠ 0 ∧
        now + (fetch .spotifyToken now).elapsed + tokenTTL * 1000 < now2 :=
      ⟨by simp [tokenTTL], Nat.lt_of_not_le hgt⟩
    unfold cacheGet at htr
    rw [hstored] at htr
    dsimp only at htr
    rw [if_pos hexp] at htr
    simp [JsVal.truthy] at htr
  have hq : (now2 : ℚ) ≤
      ((now + (fetch .spotifyToken now).elapsed : Nat) : ℚ) + 3500 * 1000 := by
    have : ((now2 : Nat) : ℚ) ≤
        ((now + (fetch .spotifyToken now).elapsed + tokenTTL * 1000 : Nat) : ℚ) := by
      exact_mod_cast hle
    have h2 : ((now + (fetch .spotifyToken now).elapsed + tokenTTL * 1000 : Nat) : ℚ) =
        ((now + (fetch .spotifyToken now).elapsed : Nat) : ℚ) + 3500 * 1000 := by
      simp [tokenTTL]
      norm_num
    rw [h2] at this
    exact this
  have hmargin : (3500 : ℚ) * 1000 < x * 1000 := by linarith
  linarith

theorem token_safety_margin_witness :
    tokenTTL = 3500 ∧
    JsMap.get (getSpotifyToken (tokenUpstream 3600) 0 []).tokenCache
      "spotify_token" = some ⟨0 + 5 + tokenTTL * 1000, .str "tok_a"⟩ ∧
    (tokenTTL : ℚ) < 3600 := by
  have h := token_safety_margin (tokenUpstream 3600) 0 []
    (.obj [("access_token", .str "tok_a"), ("expires_in", .num 3600)])
    (.str "tok_a") 3600 rfl rfl rfl
    (by simp [JsVal.field, JsVal.lookup]) (by norm_num)
  exact ⟨h.1, h.2.1, h.2.2.1⟩

/-! ## Expiry of cached values -/

/-- C14, as stated, fails at the boundary: a value written into the events
cache at time `0` is still returned by a read at exactly `0 + 21600` seconds,
where the claim says the key is absent. -/
theorem cache_visible_at_expiry :
    (cacheGet (cacheSet [] eventsTTL 0 "events_x" (.arr [.str "e"]))
      (21600 * 1000) "events_x").1 = .arr [.str "e"] ∧
    (cacheGet (cacheSet [] eventsTTL 0 "events_x" (.arr [.str "e"]))
      (21600 * 1000) "events_x").1.truthy = true := by
  have h : (cacheGet (cacheSet [] eventsTTL 0 "events_x" (.arr [.str "e"]))
      (21600 * 1000) "events_x").1 = .arr [.str "e"] := by
    rw [(cacheGet_cacheSet [] eventsTTL 0 (21600 * 1000) "events_x"
      (.arr [.str "e"]) (by decide)).1 (by decide)]
  exact ⟨h, by rw [h]; rfl⟩

/-- C14, amended: the caches are created with TTL 21600 s (events), 604800 s
(lyrics/song), 86400 s (artist info in `lastfm.js`) and 86400 s (tracks in
`spotify.js`); for a key `k` and value `v` written into one of them at time `t`
(milliseconds), a read of `k` returns `v` at every time up to and including
`t + TTL` and returns `undefined` at every time after `t + TTL`. -/
theorem cache_ttl_window :
    (eventsTTL = 21600 ∧ geniusTTL = 604800 ∧ lastfmTTL = 86400 ∧
      trackTTL = 86400) ∧
    ∀ ttl : Nat, ttl ∈ [eventsTTL, geniusTTL, lastfmTTL, trackTTL] →
      ∀ (cache : Cache) (k : String) (v : JsVal) (t now : Nat),
        (now ≤ t + ttl * 1000 →
          (cacheGet (cacheSet cache ttl t k v) now k).1 = v) ∧
        (t + ttl * 1000 < now →
          (cacheGet (cacheSet cache ttl t k v) now k).1 = .undefined) := by
  refine ⟨⟨rfl, rfl, rfl, rfl⟩, ?_⟩
  intro ttl hmem cache k v t now
  have httl : ttl ≠ 0 := by
    simp only [List.mem_cons, List.mem_singleton, List.not_mem_nil, or_false] at hmem
    rcases hmem with h | h | h | h <;> rw [h] <;> decide
  have h := cacheGet_cacheSet cache ttl t now k v httl
  exact ⟨fun hle => by rw [h.1 hle], h.2⟩

theorem cache_ttl_window_witness :
    (cacheGet (cacheSet [] geniusTTL 1000 "song_42" (.str "v")) 604801000
      "song_42").1 = .str "v" ∧
    (cacheGet (cacheSet [] geniusTTL 1000 "song_42" (.str "v")) 604801001
      "song_42").1 = .undefined := by
  have h := cache_ttl_window.2 geniusTTL (by simp) [] "song_42" (.str "v") 1000
  exact ⟨(h 604801000).1 (by decide), (h 604801001).2 (by decide)⟩

/-! ## Validation of the search query -/

theorem searchTry_status (reply : Reply) (r : Response)
    (h : searchTry reply = .ok r) : r.status = 200 := by
  unfold searchTry at h
  simp only [bind_ok_iff] at h
  obtain ⟨_, _, _, _, _, _, len, _, h⟩ := h
  split at h
  · simp only [pure_ok_iff] at h
    rw [← h]; rfl
  · simp only [bind_ok_iff, pure_ok_iff] at h
    obtain ⟨_, _, h⟩ := h
    rw [← h]; rfl

/-- C15: a request to `/lyrics/search` whose `q` is absent or the empty string
is answered with status 400 and `success: false` and makes no upstream call; a
request with a non-empty `q` is never answered with 400. -/
theorem search_validation (fetch : Upstream) (now : Nat) :
    (∀ q : JsVal, q = .undefined ∨ q = .str "" →
      (searchRoute fetch now q).response.status = 400 ∧
      (searchRoute fetch now q).response.body.field "success" = .bool false ∧
      (searchRoute fetch now q).calls = []) ∧
    (∀ s : String, s ≠ "" →
      (searchRoute fetch now (.str s)).response.status ≠ 400) := by
  constructor
  · intro q hq
    have hf : q.truthy = false := by
      rcases hq with h | h <;> rw [h] <;> simp [JsVal.truthy]
    unfold searchRoute
    simp [hf, JsVal.field, JsVal.lookup]
  · intro s hs
    have ht : (JsVal.str s).truthy = true := by simp [JsVal.truthy, hs]
    unfold searchRoute
    simp only [ht, Bool.not_true, Bool.false_eq_true, if_false]
    cases htry : searchTry (fetch (.geniusSearch (.str s)) now) with
    | ok r =>
      simp only []
      rw [searchTry_status _ r htry]
      decide
    | error e =>
      simp only [failure]
      decide

theorem search_validation_witness :
    (searchRoute upstream404 0 .undefined).response.status = 400 ∧
    (searchRoute upstream404 0 .undefined).calls = [] ∧
    (searchRoute upstream404 0 (.str "hello")).response.status ≠ 400 := by
  have h := search_validation upstream404 0
  exact ⟨(h.1 .undefined (Or.inl rfl)).1, (h.1 .undefined (Or.inl rfl)).2.2,
    h.2 "hello" (by decide)⟩

/-! ## Normalisation of events -/

theorem ticketUrl_error (event : JsVal) (e : JsError)
    (h : ticketUrl event = .error e) : e.response = none := by
  unfold ticketUrl at h
  rw [bind_error_iff] at h
  rcases h with h | ⟨url, -, h⟩
  · exact prop_error _ _ _ h
  · split at h
    · simp [pure, Except.pure] at h
    · rw [bind_error_iff] at h
      rcases h with h | ⟨offers, -, h⟩
      · exact prop_error _ _ _ h
      · rw [bind_error_iff] at h
        rcases h with h | ⟨offer, -, h⟩
        · exact first_error _ _ h
        · simp [pure, Except.pure] at h

theorem transformEvent_error (rt : Runtime) (artistName : String)
    (event : JsVal) (e : JsError)
    (h : transformEvent rt artistName event = .error e) : e.response = none := by
  unfold transformEvent at h
  simp only [bind_error_iff, pure_ne_error] at h
  rcases h with h | ⟨_, -, h | ⟨_, -, h | ⟨_, -, h | ⟨_, -, h | ⟨_, -, h |
    ⟨_, -, h | ⟨_, -, h | ⟨_, -, h | ⟨_, -, h | ⟨_, -, h | ⟨_, -, h |
    ⟨_, -, h | ⟨_, -, h⟩⟩⟩⟩⟩⟩⟩⟩⟩⟩⟩⟩⟩
  all_goals first
    | exact prop_error _ _ _ h
    | exact splitT_error _ _ h
    | exact ticketUrl_error _ _ h
    | exact h.elim

theorem mapM_error {α β : Type} (f : α → Except JsError β) (l : List α)
    (e : JsError) (h : l.mapM f = .error e) : ∃ x ∈ l, f x = .error e := by
  induction l with
  | nil =>
    rw [List.mapM_nil] at h
    simp [pure, Except.pure] at h
  | cons a rest ih =>
    rw [List.mapM_cons] at h
    cases ha : f a with
    | error e1 =>
      rw [ha] at h
      simp only [bind, Except.bind] at h
      exact ⟨a, List.mem_cons_self _ _, by rw [ha, Except.error.inj h]⟩
    | ok b =>
      rw [ha] at h
      simp only [bind, Except.bind] at h
      cases hr : rest.mapM f with
      | error e2 =>
        rw [hr] at h
        simp only [] at h
        have he : e2 = e := Except.error.inj h
        rw [he] at hr
        obtain ⟨x, hx, hfx⟩ := ih hr
        exact ⟨x, List.mem_cons_of_mem _ hx, hfx⟩
      | ok ys =>
        rw [hr] at h
        simp [pure, Except.pure] at h

theorem mapM_ok_all {α β : Type} (f : α → Except JsError β) (l : List α)
    (ys : List β) (h : l.mapM f = .ok ys) : ∀ x ∈ l, ∃ y, f x = .ok y := by
  induction l generalizing ys with
  | nil => intro x hx; simp at hx
  | cons a rest ih =>
    rw [List.mapM_cons] at h
    cases ha : f a with
    | error e1 =>
      rw [ha] at h
      simp [bind, Except.bind] at h
    | ok b =>
      rw [ha] at h
      simp only [bind, Except.bind] at h
      cases hr : rest.mapM f with
      | error e2 =>
        rw [hr] at h
        simp at h
      | ok zs =>
        intro x hx
        rcases List.mem_cons.mp hx with hxa | hxr
        · exact ⟨b, by rw [hxa, ha]⟩
        · exact ih zs hr x hxr

theorem optField_eq_field (v : JsVal) (name : String) :
    v.optField name = v.field name := by
  cases v <;> rfl

theorem transformEvent_of_ticket (rt : Runtime) (artistName : String)
    (event : JsVal) (d : String) (ticket : JsVal)
    (hev : event.nullish = false) (hdt : event.field "datetime" = .str d)
    (hvenue : (event.field "venue").nullish = false)
    (ht : ticketUrl event = .ok ticket) :
    ∃ out, transformEvent rt artistName event = .ok out ∧
      out.field "ticket_url" = ticket ∧
      out.field "offers" = (event.field "offers").orElse (.arr []) := by
  unfold transformEvent
  simp only [prop_of_not_nullish event _ hev, hdt, splitT,
    prop_of_not_nullish _ _ hvenue, ht, bind, Except.bind, pure, Except.pure]
  exact ⟨_, rfl, by simp [JsVal.field, JsVal.lookup],
    by simp [JsVal.field, JsVal.lookup]⟩

theorem transformEvent_of_ticket_error (rt : Runtime) (artistName : String)
    (event : JsVal) (e : JsError) (ht : ticketUrl event = .error e) :
    ∃ e1, transformEvent rt artistName event = .error e1 := by
  cases h : transformEvent rt artistName event with
  | error e1 => exact ⟨e1, rfl⟩
  | ok out =>
    exfalso
    unfold transformEvent at h
    simp only [bind_ok_iff, pure_ok_iff] at h
    obtain ⟨_, _, _, _, _, _, _, _, _, _, _, _, _, _, _, _, _, _, _, _, _, _,
      t, hticket, _⟩ := h
    rw [ht] at hticket
    cases hticket

theorem eventsRoute_of_raise (rt : Runtime) (fetch : Upstream) (now : Nat)
    (artistName : String) (cache : Cache) (events : List JsVal) (event : JsVal)
    (e : JsError)
    (hmiss : (cacheGet cache now ("events_" ++ rt.lower artistName)).1.truthy = false)
    (hok : (fetch (.bandsintownEvents artistName) now).result = .ok (.arr events))
    (hmem : event ∈ events)
    (hraise : transformEvent rt artistName event = .error e) :
    (eventsRoute rt fetch now artistName cache).response.status = 500 ∧
    (eventsRoute rt fetch now artistName cache).response.body.field "success" =
      .bool false ∧
    (eventsRoute rt fetch now artistName cache).cache =
      (cacheGet cache now ("events_" ++ rt.lower artistName)).2 := by
  have hmap : ∃ e1, events.mapM (transformEvent rt artistName) = .error e1 ∧
      e1.response = none := by
    cases hm : events.mapM (transformEvent rt artistName) with
    | error e1 =>
      obtain ⟨x, _, hx⟩ := mapM_error _ _ _ hm
      exact ⟨e1, rfl, transformEvent_error rt artistName x e1 hx⟩
    | ok ys =>
      obtain ⟨y, hy⟩ := mapM_ok_all _ _ ys hm event hmem
      rw [hraise] at hy
      cases hy
  obtain ⟨e1, hm, hresp⟩ := hmap
  have htry : eventsTry rt (fetch (.bandsintownEvents artistName) now)
      (now + (fetch (.bandsintownEvents artistName) now).elapsed) artistName
      ("events_" ++ rt.lower artistName)
      (cacheGet cache now ("events_" ++ rt.lower artistName)).2 = .error e1 := by
    unfold eventsTry
    rw [hok]
    cases events with
    | nil => simp at hmem
    | cons a rest =>
      simp only [bind, Except.bind]
      rw [hm]
  unfold eventsRoute
  simp only [hmiss, Bool.false_eq_true, if_false, htry, hresp]
  simp [failure, JsVal.field, JsVal.lookup]

/-- C16: for an upstream event with a `datetime` string and a venue the
normalisation returns, with `ticket_url` the `url` of the event when that is
truthy, otherwise the `url` of the first offer when `offers` is an array whose
first element has a truthy `url`, otherwise `#` when `offers` is an array; when
`url` is falsy and `offers` is absent the normalisation raises, although the
`offers` output field defaults to the empty array, and a request whose upstream
answer contains such an event is answered 500 with `success: false` and leaves
the cache as the lookup left it. -/
theorem event_ticket_url (rt : Runtime) (artistName : String) (event : JsVal)
    (d : String) (hev : event.nullish = false)
    (hdt : event.field "datetime" = .str d)
    (hvenue : (event.field "venue").nullish = false) :
    ((event.field "url").truthy = true →
      ∃ out, transformEvent rt artistName event = .ok out ∧
        out.field "ticket_url" = event.field "url") ∧
    ((event.field "url").truthy = false →
      (∀ (o : JsVal) (rest : List JsVal),
        event.field "offers" = .arr (o :: rest) →
        (o.field "url").truthy = true →
        ∃ out, transformEvent rt artistName event = .ok out ∧
          out.field "ticket_url" = o.field "url") ∧
      (∀ items : List JsVal, event.field "offers" = .arr items →
        ((items.headD .undefined).field "url").truthy = false →
        ∃ out, transformEvent rt artistName event = .ok out ∧
          out.field "ticket_url" = .str "#") ∧
      (event.field "offers" = .undefined →
        (∃ e, transformEvent rt artistName event = .error e) ∧
        ((event.field "offers").orElse (.arr []) = .arr []) ∧
        ∀ (fetch : Upstream) (now : Nat) (cache : Cache) (events : List JsVal),
          (cacheGet cache now ("events_" ++ rt.lower artistName)).1.truthy = false →
          (fetch (.bandsintownEvents artistName) now).result = .ok (.arr events) →
          event ∈ events →
          (eventsRoute rt fetch now artistName cache).response.status = 500 ∧
          (eventsRoute rt fetch now artistName cache).response.body.field
            "success" = .bool false ∧
          (eventsRoute rt fetch now artistName cache).cache =
            (cacheGet cache now ("events_" ++ rt.lower artistName)).2)) := by
  constructor
  · intro hurl
    have ht : ticketUrl event = .ok (event.field "url") := by
      unfold ticketUrl
      simp [prop_of_not_nullish event _ hev, bind, Except.bind, hurl, pure,
        Except.pure]
    obtain ⟨out, hout, hticket, _⟩ :=
      transformEvent_of_ticket rt artistName event d _ hev hdt hvenue ht
    exact ⟨out, hout, hticket⟩
  · intro hurl
    refine ⟨?_, ?_, ?_⟩
    · intro o rest hoffers ho
      have ht : ticketUrl event = .ok (o.field "url") := by
        unfold ticketUrl
        simp [prop_of_not_nullish event _ hev, bind, Except.bind, hurl, pure,
          Except.pure, hoffers, JsVal.first, optField_eq_field, JsVal.orElse, ho]
      obtain ⟨out, hout, hticket, _⟩ :=
        transformEvent_of_ticket rt artistName event d _ hev hdt hvenue ht
      exact ⟨out, hout, hticket⟩
    · intro items hoffers ho
      have ht : ticketUrl event = .ok (.str "#") := by
        rw [List.headD_eq_head?_getD] at ho
        unfold ticketUrl
        simp [prop_of_not_nullish event _ hev, bind, Except.bind, hurl, pure,
          Except.pure, hoffers, JsVal.first, optField_eq_field, JsVal.orElse, ho]
      obtain ⟨out, hout, hticket, _⟩ :=
        transformEvent_of_ticket rt artistName event d _ hev hdt hvenue ht
      exact ⟨out, hout, hticket⟩
    · intro hoffers
      have ht : ticketUrl event = .error
          (typeError "Cannot read properties of undefined (reading \x270\x27)") := by
        unfold ticketUrl
        simp [prop_of_not_nullish event _ hev, bind, Except.bind, hurl,
          hoffers, JsVal.first]
      have hraise := transformEvent_of_ticket_error rt artistName event _ ht
      refine ⟨hraise, by rw [hoffers]; rfl, ?_⟩
      intro fetch now cache events hmiss hok hmem
      obtain ⟨e, he⟩ := hraise
      exact eventsRoute_of_raise rt fetch now artistName cache events event e
        hmiss hok hmem he

theorem event_ticket_url_witness :
    (∃ out, transformEvent sampleRuntime "Band" offerEvent = .ok out ∧
      out.field "ticket_url" = .str "https://tickets.example/e2") ∧
    (∃ e, transformEvent sampleRuntime "Band" bareEvent = .error e) ∧
    (eventsRoute sampleRuntime (constUpstream (.arr [offerEvent, bareEvent])) 0
      "Band" []).response.status = 500 := by
  have h1 := (event_ticket_url sampleRuntime "Band" offerEvent
    "2025-01-02T20:30:00" rfl rfl rfl).2 rfl
  have h2 := (event_ticket_url sampleRuntime "Band" bareEvent
    "2025-01-02T20:30:00" rfl rfl rfl).2 rfl
  refine ⟨h1.1 _ [] rfl rfl, (h2.2.2 rfl).1, ?_⟩
  exact ((h2.2.2 rfl).2.2 (constUpstream (.arr [offerEvent, bareEvent])) 0 []
    [offerEvent, bareEvent] rfl rfl (by simp)).1

end Musij
